import Mathlib

/-!
Shallow embedding of the `lepton_rs` VoSPI frame-capture engine
(`src/vospi.rs` and `src/crc.rs`), together with theorems settling the
frozen claims about it.

Conventions of the embedding:
* Rust `u8` bytes are `Nat` values; a cast `x as u16` of a `u8` is written
  `x % 256`, and bit masks on values known to fit a width are written with
  `/`, `%` and `*` (e.g. `id & 0x0FFF` is `id % 4096`, `id >> 12` is
  `id / 4096`, `(id >> 12) & 0x7` is `id / 4096 % 8`).
* A packet source `S: PacketSource` is modelled by the deterministic
  function `src : Nat → Except ε (List Nat)`: `src k` is the outcome of the
  k-th successful call to `read_packet`, the returned list being the
  contents the source wrote into `packet_buf[..packet_size_bytes]`.
* Mutable state threaded through `capture_frame_into` (the
  `first_valid_synced` latch, sync state, cumulative diagnostics, the frame
  buffer, and the local per-attempt variables) is one explicit record,
  `CaptureState`.
-/

namespace LeptonRs

/-- `SyncState` from `src/vospi.rs`. -/
inductive SyncState where
  | Unsynced
  | Seeking
  | Locked
deriving DecidableEq

/-- `RobustCaptureConfig` from `src/vospi.rs`. -/
structure RobustCaptureConfig where
  enable_crc : Bool
  max_resync_attempts : Nat
  max_frame_retries : Nat
  packet_size_bytes : Nat
  lines_per_segment : Nat
  segments_per_frame : Nat
  max_discard_packets : Nat
  timeout_packets : Nat
  backoff_packet_reads : Nat
deriving DecidableEq

/-- `impl Default for RobustCaptureConfig`. -/
def RobustCaptureConfig.default : RobustCaptureConfig :=
  { enable_crc := true
    max_resync_attempts := 20
    max_frame_retries := 4
    packet_size_bytes := 164
    lines_per_segment := 60
    segments_per_frame := 4
    max_discard_packets := 600
    timeout_packets := 3000
    backoff_packet_reads := 2 }

/-- `FrameDiagnostics` from `src/vospi.rs` (cumulative counters). -/
structure FrameDiagnostics where
  discard_count : Nat
  crc_error_count : Nat
  bad_line_count : Nat
  resync_count : Nat
deriving DecidableEq

/-- `FrameMeta` from `src/vospi.rs` (per-frame snapshot). -/
structure FrameMeta where
  valid : Bool
  capture_ticks : Nat
  discard_packets : Nat
  crc_errors : Nat
  bad_line_count : Nat
  resync_count : Nat
deriving DecidableEq

/-- `PacketHeader` from `src/vospi.rs`. -/
structure PacketHeader where
  packet_id : Nat
  packet_number : Nat
  crc : Nat
  is_discard : Bool
deriving DecidableEq

/-- `PacketHeader::decode_segment_on_packet20`: `None` unless
`packet_number == 20`, otherwise `(packet_id >> 12) & 0x7`. -/
def PacketHeader.decode_segment_on_packet20 (h : PacketHeader) : Option Nat :=
  if h.packet_number ≠ 20 then none
  else some (h.packet_id / 4096 % 8)

/-- `parse_packet_header`: `packet_id` is the big-endian `u16` of bytes 0-1,
`packet_number = packet_id & 0x0FFF`, the CRC field is the big-endian `u16`
of bytes 2-3 and `is_discard = (packet_id & 0xF000) == 0xF000` (the top
nibble of the id is `0xF`, i.e. `packet_id / 4096 = 15`). -/
def parse_packet_header (packet : List Nat) : Option PacketHeader :=
  if packet.length < 4 then none
  else
    let packet_id := packet.getD 0 0 % 256 * 256 + packet.getD 1 0 % 256
    some { packet_id := packet_id
           packet_number := packet_id % 4096
           crc := packet.getD 2 0 % 256 * 256 + packet.getD 3 0 % 256
           is_discard := packet_id / 4096 = 15 }

/-- `is_discard_packet` from `src/vospi.rs`. -/
def is_discard_packet (packet : List Nat) : Bool :=
  match parse_packet_header packet with
  | some h => h.is_discard
  | none => false

/-- `line_number` from `src/vospi.rs`. -/
def line_number (packet : List Nat) : Option Nat :=
  (parse_packet_header packet).map (fun h => h.packet_number)

/-- `segment_number` from `src/vospi.rs`. -/
def segment_number (packet : List Nat) : Option Nat :=
  (parse_packet_header packet).bind (fun h => h.decode_segment_on_packet20)

/-- One shift-and-xor round of CRC-16/CCITT (`crc.rs` inner `for` loop):
on a `u16` value, `crc & 0x8000 != 0` is `32768 ≤ crc`, and `crc << 1`
wraps modulo 2^16. The polynomial `0x1021` is `4129`. -/
def crc16_round (crc : Nat) : Nat :=
  if crc < 32768 then crc * 2 % 65536
  else (crc * 2 ^^^ 4129) % 65536

/-- Eight rounds (`for _ in 0..8` in `crc.rs`). -/
def crc16_rounds : Nat → Nat → Nat
  | 0, crc => crc
  | n + 1, crc => crc16_rounds n (crc16_round crc)

/-- `crc ^= (normalized as u16) << 8;` followed by the 8 rounds. -/
def crc16_feed (crc b : Nat) : Nat :=
  crc16_rounds 8 (crc ^^^ b % 256 * 256)

/-- The VoSPI normalization of `crc.rs`: byte 0 is masked with `0x0F`
(`b % 16` for a `u8`), bytes 2 and 3 are treated as zero, and every other
byte is used as is (`b % 256` as its `u8` value). -/
def vospi_norm_byte (idx b : Nat) : Nat :=
  if idx = 0 then b % 16
  else if idx = 2 ∨ idx = 3 then 0
  else b % 256

/-- The enumerated fold of `crc.rs` (`for (idx, &byte) in packet.iter().enumerate()`). -/
def crc16_fold (idx crc : Nat) : List Nat → Nat
  | [] => crc
  | b :: rest => crc16_fold (idx + 1) (crc16_feed crc (vospi_norm_byte idx b)) rest

/-- `lepton_packet_crc16_spec` from `src/crc.rs`: `None` for packets
shorter than 4 bytes, otherwise the normalized CRC-16 over all bytes. -/
def lepton_packet_crc16_spec (packet : List Nat) : Option Nat :=
  if packet.length < 4 then none
  else some (crc16_fold 0 0 packet)

/-- `validate_packet_crc` from `src/vospi.rs`. -/
def validate_packet_crc (packet : List Nat) : Bool :=
  match parse_packet_header packet, lepton_packet_crc16_spec packet with
  | some header, some c => header.crc = c
  | _, _ => false

/-- `required_frame_buffer_len` from `src/vospi.rs`. -/
def required_frame_buffer_len (cfg : RobustCaptureConfig) : Nat :=
  if cfg.packet_size_bytes < 4 then 0
  else (cfg.packet_size_bytes - 4) * cfg.lines_per_segment * cfg.segments_per_frame

/-- `CaptureError<SpiError>` from `src/vospi.rs`. -/
inductive CaptureError (ε : Type) where
  | Spi : ε → CaptureError ε
  | InvalidPacket : CaptureError ε
  | SyncLost : CaptureError ε
  | DiscardPacketFlood : CaptureError ε
  | CrcMismatch : CaptureError ε
  | SegmentOutOfOrder : Nat → Nat → CaptureError ε
  | LineOutOfOrder : Nat → Nat → CaptureError ε
  | Timeout : CaptureError ε
  | RetryLimitExceeded : CaptureError ε
deriving DecidableEq

/-- Whether an error is `CaptureError::Spi(_)` (the first match arm of the
error handling in `capture_frame_into`). -/
def isSpiErr {ε : Type} : CaptureError ε → Bool
  | .Spi _ => true
  | _ => false

/-- The `matches!(err, CrcMismatch | LineOutOfOrder {..} | SegmentOutOfOrder {..})`
test of the `immediate_locked` rule in `capture_frame_into`. -/
def isImmediateErr {ε : Type} : CaptureError ε → Bool
  | .CrcMismatch => true
  | .LineOutOfOrder _ _ => true
  | .SegmentOutOfOrder _ _ => true
  | _ => false

/-- Whether a capture result is `Ok`. -/
def captureOk {ε : Type} : Except (CaptureError ε) FrameMeta → Bool
  | .ok _ => true
  | .error _ => false

/-- All state mutated (or locally maintained) inside `capture_frame_into`
and `read_one_frame`: the caller-owned latch, sync state, cumulative
diagnostics and frame buffer, plus the per-attempt `meta` record, the
assembler cursors `expected_segment` / `expected_packet_number`, the
per-attempt `packets_seen` counter, the number of `read_packet` calls
performed so far (`readIdx`), and the number of `now_ticks()` calls
performed so far (`tickIdx`). -/
structure CaptureState where
  first_valid_synced : Bool
  sync_state : SyncState
  diagnostics : FrameDiagnostics
  meta : FrameMeta
  frame : List Nat
  readIdx : Nat
  tickIdx : Nat
  expected_segment : Nat
  expected_packet_number : Nat
  packets_seen : Nat
deriving DecidableEq

/-- `read_packet` must fill the whole of `packet_buf[..packet_size_bytes]`;
the delivered bytes are normalized to exactly that length (a source that
honours the `PacketSource` contract delivers exactly
`cfg.packet_size_bytes` bytes, in which case this is the identity). -/
def buffer_fill (cfg : RobustCaptureConfig) (delivered : List Nat) : List Nat :=
  delivered.take cfg.packet_size_bytes ++
    List.replicate (cfg.packet_size_bytes - delivered.length) 0

/-- `frame[dst_start..dst_start+src.length].copy_from_slice(src)`. -/
def write_bytes (frame : List Nat) (dst_start : Nat) (src : List Nat) : List Nat :=
  frame.take dst_start ++ src ++ frame.drop (dst_start + src.length)

/-- The fall-through tail of the packet loop in `read_one_frame`: copy the
payload `packet_buf[4..packet_size_bytes]` into
`frame[frame_line*payload_len ..]` and advance the cursors, wrapping
`expected_packet_number` into `expected_segment` at `lines_per_segment`. -/
def accept_packet (cfg : RobustCaptureConfig) (st : CaptureState)
    (buf : List Nat) : CaptureState :=
  let payload_len := cfg.packet_size_bytes - 4
  let frame_line :=
    (st.expected_segment - 1) * cfg.lines_per_segment + st.expected_packet_number
  let st1 := { st with frame := write_bytes st.frame (frame_line * payload_len) (buf.drop 4) }
  if st1.expected_packet_number + 1 = cfg.lines_per_segment then
    { st1 with expected_packet_number := 0
               expected_segment := st1.expected_segment + 1 }
  else
    { st1 with expected_packet_number := st1.expected_packet_number + 1 }

/-- The outcome of processing one inbound packet: either the attempt fails
with an error (`fatal`), or the loop continues from an updated state. -/
inductive StepResult (ε : Type) where
  | fatal : CaptureError ε → CaptureState → StepResult ε
  | next : CaptureState → StepResult ε
deriving DecidableEq

/-- The body of the packet loop of `read_one_frame` after a parsed header:
discard handling, CRC check, start-of-frame scanning in Seeking, line and
segment ordering, and payload acceptance. -/
def handle_header {ε : Type} (cfg : RobustCaptureConfig) (locked : Bool)
    (buf : List Nat) (header : PacketHeader) (st : CaptureState) : StepResult ε :=
  if header.is_discard then
    let st1 := { st with
      diagnostics.discard_count := st.diagnostics.discard_count + 1
      meta.discard_packets := st.meta.discard_packets + 1 }
    if cfg.max_discard_packets < st1.meta.discard_packets then
      .fatal .DiscardPacketFlood st1
    else
      .next st1
  else if cfg.enable_crc = true ∧ validate_packet_crc buf = false then
    let st1 := { st with
      diagnostics.crc_error_count := st.diagnostics.crc_error_count + 1
      meta.crc_errors := st.meta.crc_errors + 1 }
    if locked then .fatal .CrcMismatch st1
    else .next { st1 with expected_segment := 1, expected_packet_number := 0 }
  else
    let pn := header.packet_number
    if locked = false ∧ st.expected_segment = 1 ∧ st.expected_packet_number = 0 ∧ pn ≠ 0 then
      .next st
    else if pn ≠ st.expected_packet_number then
      if locked then
        let st1 := { st with
          diagnostics.bad_line_count := st.diagnostics.bad_line_count + 1
          meta.bad_line_count := st.meta.bad_line_count + 1 }
        -- `expected_packet_number as u16` / `header.packet_number` (a `u16`)
        .fatal (.LineOutOfOrder (st.expected_packet_number % 65536) pn) st1
      else .next { st with expected_segment := 1, expected_packet_number := 0 }
    else if pn = 20 then
      match header.decode_segment_on_packet20 with
      | none => .fatal .InvalidPacket st
      | some seg =>
        if seg = 0 ∨ cfg.segments_per_frame < seg then .fatal .InvalidPacket st
        else if seg ≠ st.expected_segment then
          if locked then
            -- `expected_segment as u8` / `segment` (a `u8`)
            .fatal (.SegmentOutOfOrder (st.expected_segment % 256) seg) st
          else .next { st with expected_segment := 1, expected_packet_number := 0 }
        else .next (accept_packet cfg st buf)
    else .next (accept_packet cfg st buf)

/-- One iteration of the packet loop of `read_one_frame`: read a packet
(propagating transport errors), count it against `timeout_packets`, parse
its header (`InvalidPacket` on failure) and hand it to `handle_header`. -/
def read_packet_step {ε : Type} (src : Nat → Except ε (List Nat))
    (cfg : RobustCaptureConfig) (locked : Bool) (st : CaptureState) : StepResult ε :=
  match src st.readIdx with
  | .error e => .fatal (.Spi e) st
  | .ok delivered =>
    let buf := buffer_fill cfg delivered
    let st1 := { st with readIdx := st.readIdx + 1, packets_seen := st.packets_seen + 1 }
    if cfg.timeout_packets < st1.packets_seen then .fatal .Timeout st1
    else
      match parse_packet_header buf with
      | none => .fatal .InvalidPacket st1
      | some header => handle_header cfg locked buf header st1

/-- The state carried by a `StepResult`, for both outcomes. -/
def StepResult.state {ε : Type} : StepResult ε → CaptureState
  | .fatal _ s => s
  | .next s => s

/-- `handle_header` never touches `packets_seen`, `readIdx`,
`first_valid_synced`, `sync_state`, `tickIdx`, `meta.capture_ticks`,
`meta.valid` or `meta.resync_count`, and its counters only grow. -/
theorem handle_header_state {ε : Type} (cfg : RobustCaptureConfig) (locked : Bool)
    (buf : List Nat) (header : PacketHeader) (st : CaptureState) :
    ((handle_header (ε := ε) cfg locked buf header st).state).packets_seen = st.packets_seen ∧
    ((handle_header (ε := ε) cfg locked buf header st).state).readIdx = st.readIdx ∧
    ((handle_header (ε := ε) cfg locked buf header st).state).first_valid_synced =
      st.first_valid_synced ∧
    ((handle_header (ε := ε) cfg locked buf header st).state).sync_state = st.sync_state ∧
    ((handle_header (ε := ε) cfg locked buf header st).state).tickIdx = st.tickIdx ∧
    ((handle_header (ε := ε) cfg locked buf header st).state).meta.capture_ticks =
      st.meta.capture_ticks ∧
    ((handle_header (ε := ε) cfg locked buf header st).state).meta.valid = st.meta.valid ∧
    ((handle_header (ε := ε) cfg locked buf header st).state).meta.resync_count =
      st.meta.resync_count ∧
    st.diagnostics.discard_count ≤
      ((handle_header (ε := ε) cfg locked buf header st).state).diagnostics.discard_count ∧
    st.diagnostics.crc_error_count ≤
      ((handle_header (ε := ε) cfg locked buf header st).state).diagnostics.crc_error_count ∧
    st.diagnostics.bad_line_count ≤
      ((handle_header (ε := ε) cfg locked buf header st).state).diagnostics.bad_line_count ∧
    st.diagnostics.resync_count ≤
      ((handle_header (ε := ε) cfg locked buf header st).state).diagnostics.resync_count := by
  rcases hh : handle_header (ε := ε) cfg locked buf header st with ⟨e, st2⟩ | st2 <;>
    simp only [StepResult.state] <;>
    · unfold handle_header accept_packet at hh
      dsimp only [] at hh
      repeat' split at hh
      all_goals cases hh
      all_goals (try simp)

/-- On a `next` outcome, `read_packet_step` consumed exactly one packet,
counted it, and stayed within the `timeout_packets` budget. -/
theorem read_packet_step_next {ε : Type} {src : Nat → Except ε (List Nat)}
    {cfg : RobustCaptureConfig} {locked : Bool} {st st2 : CaptureState}
    (h : read_packet_step src cfg locked st = .next st2) :
    st2.packets_seen = st.packets_seen + 1 ∧ st2.packets_seen ≤ cfg.timeout_packets ∧
    st2.readIdx = st.readIdx + 1 := by
  unfold read_packet_step at h
  rcases hs : src st.readIdx with e | d <;> rw [hs] at h
  · simp at h
  · simp only [] at h
    split at h
    · simp at h
    · rename_i hto
      split at h
      · simp at h
      · rename_i header hp
        have hh := handle_header_state (ε := ε) cfg locked (buffer_fill cfg d) header
          { st with readIdx := st.readIdx + 1, packets_seen := st.packets_seen + 1 }
        rw [h] at hh
        simp only [StepResult.state] at hh
        simp only [not_lt] at hto
        exact ⟨hh.1, by omega, hh.2.1⟩

/-- The `while expected_segment <= cfg.segments_per_frame` loop of
`read_one_frame`. Termination is the code's own argument: every continued
iteration increments `packets_seen`, and the loop only continues while
`packets_seen` has not exceeded `timeout_packets`. -/
def read_frame_loop {ε : Type} (src : Nat → Except ε (List Nat))
    (cfg : RobustCaptureConfig) (locked : Bool) (st : CaptureState) :
    Except (CaptureError ε) Unit × CaptureState :=
  if cfg.segments_per_frame < st.expected_segment then (.ok (), st)
  else
    match h2 : read_packet_step src cfg locked st with
    | .fatal e st2 => (.error e, st2)
    | .next st2 => read_frame_loop src cfg locked st2
termination_by cfg.timeout_packets + 1 - st.packets_seen
decreasing_by
  have h3 := read_packet_step_next h2
  omega

/-- `read_one_frame` from `src/vospi.rs`: precondition check, the local
cursor variables (`expected_segment = 1`, `expected_packet_number = 0`,
`packets_seen = 0`), `locked = (*sync_state == SyncState::Locked)` read at
entry, the packet loop, and `*sync_state = SyncState::Locked` on success. -/
def read_one_frame {ε : Type} (src : Nat → Except ε (List Nat))
    (cfg : RobustCaptureConfig) (st : CaptureState) :
    Except (CaptureError ε) Unit × CaptureState :=
  if cfg.packet_size_bytes < 4 then (.error .InvalidPacket, st)
  else
    let locked := st.sync_state = SyncState.Locked
    let st0 := { st with expected_segment := 1, expected_packet_number := 0,
                         packets_seen := 0 }
    match read_frame_loop src cfg locked st0 with
    | (.ok _, st2) => (.ok (), { st2 with sync_state := SyncState.Locked })
    | (.error e, st2) => (.error e, st2)

/-- The `for _ in 0..cfg.backoff_packet_reads` drain loop of
`capture_frame_into`: transport errors propagate. -/
def backoff_reads {ε : Type} (src : Nat → Except ε (List Nat)) :
    Nat → CaptureState → Except ε Unit × CaptureState
  | 0, st => (.ok (), st)
  | n + 1, st =>
    match src st.readIdx with
    | .error e => (.error e, st)
    | .ok _ => backoff_reads src n { st with readIdx := st.readIdx + 1 }

/-- The per-attempt setup of `capture_frame_into`: sync state from the
`first_valid_synced` latch, and a fresh `FrameMeta` whose `capture_ticks`
is a single `now_ticks()` sample. -/
def begin_attempt (cfg : RobustCaptureConfig) (ticks : Nat → Nat)
    (st : CaptureState) : CaptureState :=
  { st with
    sync_state := if st.first_valid_synced then SyncState.Locked else SyncState.Seeking
    meta := { valid := false, capture_ticks := ticks st.tickIdx, discard_packets := 0,
              crc_errors := 0, bad_line_count := 0, resync_count := 0 }
    tickIdx := st.tickIdx + 1 }

/-- The resync bookkeeping of `capture_frame_into` after a failed attempt:
`diagnostics.resync_count += 1`, `meta.resync_count += 1` and
`*sync_state = SyncState::Unsynced`. -/
def resync_bump (st : CaptureState) : CaptureState :=
  { st with
    diagnostics.resync_count := st.diagnostics.resync_count + 1
    meta.resync_count := st.meta.resync_count + 1
    sync_state := SyncState.Unsynced }

/-- The retry loop of `capture_frame_into` (everything after the buffer
precondition checks), with the loop variables `frame_attempts`,
`resync_attempts` and `last_error` explicit. -/
def capture_loop {ε : Type} (src : Nat → Except ε (List Nat))
    (cfg : RobustCaptureConfig) (ticks : Nat → Nat) :
    Nat → Nat → Option (CaptureError ε) → CaptureState →
    Except (CaptureError ε) FrameMeta × CaptureState
  | frame_attempts, resync_attempts, last_error, st =>
    if cfg.max_frame_retries < frame_attempts then
      (.error (last_error.getD .RetryLimitExceeded), st)
    else if cfg.max_resync_attempts < resync_attempts then
      (.error .SyncLost, { st with sync_state := SyncState.Unsynced })
    else
      let st1 := begin_attempt cfg ticks st
      match read_one_frame src cfg st1 with
      | (.ok _, st2) =>
        let st3 := { st2 with first_valid_synced := true, meta.valid := true }
        (.ok st3.meta, st3)
      | (.error err, st2) =>
        if isSpiErr err then (.error err, st2)
        else
          let immediate_locked :=
            st2.sync_state = SyncState.Locked ∧ isImmediateErr err = true
          let st3 := resync_bump st2
          let last_error2 : Option (CaptureError ε) := some err
          if immediate_locked then (.error err, st3)
          else
            match backoff_reads src cfg.backoff_packet_reads st3 with
            | (.error e, st4) => (.error (.Spi e), st4)
            | (.ok _, st4) =>
              if cfg.max_resync_attempts < resync_attempts + 1 then
                (.error .SyncLost, st4)
              else if h : cfg.max_frame_retries < frame_attempts + 1 then
                (.error (last_error2.getD .RetryLimitExceeded), st4)
              else
                capture_loop src cfg ticks (frame_attempts + 1) (resync_attempts + 1)
                  last_error2 st4
termination_by fa _ _ _ => cfg.max_frame_retries + 1 - fa
decreasing_by omega

/-- `capture_frame_into` from `src/vospi.rs`: precondition checks
(`InvalidPacket` on undersized packets or buffers), then the retry loop
with `frame_attempts = 0`, `resync_attempts = 0` and no recorded error.
`packet_buf_len` is the length of the caller's scratch packet buffer. -/
def capture_frame_into {ε : Type} (src : Nat → Except ε (List Nat))
    (cfg : RobustCaptureConfig) (ticks : Nat → Nat) (packet_buf_len : Nat)
    (st : CaptureState) : Except (CaptureError ε) FrameMeta × CaptureState :=
  if cfg.packet_size_bytes < 4 then (.error .InvalidPacket, st)
  else if packet_buf_len < cfg.packet_size_bytes ∨
      st.frame.length < required_frame_buffer_len cfg then
    (.error .InvalidPacket, st)
  else capture_loop src cfg ticks 0 0 none st

/-- `CapturedFrame` from `src/vospi.rs`. -/
structure CapturedFrame where
  pixels : List Nat
  meta : FrameMeta
deriving DecidableEq

/-- `capture_frame_from_source` from `src/vospi.rs`: allocates a zeroed
frame buffer of `required_frame_buffer_len` bytes and a packet scratch
buffer of `packet_size_bytes`, runs `capture_frame_into`, and returns the
pixels together with the metadata. -/
def capture_frame_from_source {ε : Type} (src : Nat → Except ε (List Nat))
    (cfg : RobustCaptureConfig) (ticks : Nat → Nat) (st : CaptureState) :
    Except (CaptureError ε) CapturedFrame × CaptureState :=
  let stf := { st with frame := List.replicate (required_frame_buffer_len cfg) 0 }
  match capture_frame_into src cfg ticks cfg.packet_size_bytes stf with
  | (.ok meta, st2) => (.ok { pixels := st2.frame, meta := meta }, st2)
  | (.error e, st2) => (.error e, st2)

/-- The arguments of one `capture_frame_into` call, for reasoning about
sequences of capture calls against the same driver state. -/
structure CaptureCall (ε : Type) where
  src : Nat → Except ε (List Nat)
  cfg : RobustCaptureConfig
  ticks : Nat → Nat
  packet_buf_len : Nat

/-- A sequence of `capture_frame_into` calls sharing the driver state. -/
def run_captures {ε : Type} :
    List (CaptureCall ε) → CaptureState →
    List (Except (CaptureError ε) FrameMeta) × CaptureState
  | [], st => ([], st)
  | c :: rest, st =>
    let r := capture_frame_into c.src c.cfg c.ticks c.packet_buf_len st
    let rs := run_captures rest r.2
    (r.1 :: rs.1, rs.2)

/-! ### Synthesized input streams

The following definitions build the well-formed test streams described by
the specification (its end-to-end scenarios, mirrored by the repository's
`mk_packet` / `mk_frame` test helpers): 164-byte packets whose id encodes
the line number (and, on line 20, the segment in bits 12..14), whose CRC
field holds the normalized CRC of the packet, and whose 160 payload bytes
are `seed.wrapping_add(idx)`. -/

/-- The packet id of a non-discard packet: for line 20 it is
`((segment & 0x7) << 12) | (packet_number & 0x0FFF)`, otherwise just
`packet_number & 0x0FFF`. -/
def packetId (packet_number segment : Nat) : Nat :=
  if packet_number = 20 then segment % 8 * 4096 + packet_number % 4096
  else packet_number % 4096

/-- A well-formed 164-byte packet: big-endian id, CRC field patched to the
packet's own normalized CRC, payload byte `i` equal to `(seed + i) % 256`. -/
def mk_packet (packet_number segment seed : Nat) : List Nat :=
  let id := packetId packet_number segment
  let base := id / 256 :: id % 256 :: 0 :: 0 ::
    (List.range 160).map (fun i => (seed + i) % 256)
  let c := crc16_fold 0 0 base
  (base.set 2 (c / 256)).set 3 (c % 256)

/-- Packet `k` of the happy-path frame stream: segments 1..4 in order,
lines 0..59 in order, payload seed `segment * 9`. -/
def canonPacket (k : Nat) : List Nat :=
  mk_packet (k % 60) (k / 60 + 1) ((k / 60 + 1) * 9)

/-- The payload carried by `canonPacket k`. -/
def canonPayload (k : Nat) : List Nat :=
  (List.range 160).map (fun i => ((k / 60 + 1) * 9 + i) % 256)

/-- The happy-path packet source: exactly one well-formed frame of 240
packets, transport error afterwards. -/
def canonSrc : Nat → Except Unit (List Nat) :=
  fun k => if k < 240 then .ok (canonPacket k) else .error ()

/-- The expected pixel output of the happy path: the 240 payloads
concatenated in (segment, line) order. -/
def canonPixels : List Nat :=
  ((List.range 240).map canonPayload).flatten

/-- The frame buffer contents after the first `k` happy-path packets have
been accepted into a zeroed 38400-byte buffer. -/
def canonFrameAt (k : Nat) : List Nat :=
  ((List.range k).map canonPayload).flatten ++ List.replicate ((240 - k) * 160) 0

/-- The line-jump stream of end-to-end scenario 4: a well-formed frame
except that the packet at index 8 carries line number 11. -/
def lineJumpSrc : Nat → Except Unit (List Nat) :=
  fun k => if k = 8 then .ok (mk_packet 11 1 0) else canonSrc k

/-- A freshly constructed driver state: latch cleared, `Unsynced`, zeroed
diagnostics, no packets read and no ticks sampled. -/
def initCaptureState : CaptureState :=
  { first_valid_synced := false
    sync_state := SyncState.Unsynced
    diagnostics := { discard_count := 0, crc_error_count := 0, bad_line_count := 0,
                     resync_count := 0 }
    meta := { valid := false, capture_ticks := 0, discard_packets := 0, crc_errors := 0,
              bad_line_count := 0, resync_count := 0 }
    frame := []
    readIdx := 0
    tickIdx := 0
    expected_segment := 1
    expected_packet_number := 0
    packets_seen := 0 }

/-! ### CRC facts -/

theorem crc16_round_lt (c : Nat) : crc16_round c < 65536 := by
  unfold crc16_round
  split <;> exact Nat.mod_lt _ (by norm_num)

theorem crc16_rounds_succ_lt : ∀ (n c : Nat), crc16_rounds (n + 1) c < 65536 := by
  intro n
  induction n with
  | zero => intro c; exact crc16_round_lt c
  | succ m ih => intro c; exact ih (crc16_round c)

theorem crc16_feed_lt (crc b : Nat) : crc16_feed crc b < 65536 :=
  crc16_rounds_succ_lt 7 _

/-- The normalized CRC of `crc.rs` is a `u16` value. -/
theorem crc16_fold_lt : ∀ (ps : List Nat) (idx crc : Nat), crc < 65536 →
    crc16_fold idx crc ps < 65536 := by
  intro ps
  induction ps with
  | nil => intro idx crc h; exact h
  | cons b rest ih => intro idx crc _; exact ih (idx + 1) _ (crc16_feed_lt _ _)

/-- The CRC fold only depends on the normalized value of each byte at its
position. -/
theorem crc16_fold_congr : ∀ (ps qs : List Nat) (idx crc : Nat),
    ps.length = qs.length →
    (∀ i, i < ps.length →
      vospi_norm_byte (idx + i) (ps.getD i 0) = vospi_norm_byte (idx + i) (qs.getD i 0)) →
    crc16_fold idx crc ps = crc16_fold idx crc qs := by
  intro ps
  induction ps with
  | nil =>
    intro qs idx crc hlen _
    cases qs with
    | nil => rfl
    | cons q qs => simp at hlen
  | cons p ps ih =>
    intro qs idx crc hlen hnorm
    cases qs with
    | nil => simp at hlen
    | cons q qs =>
      have h0 := hnorm 0 (by simp)
      simp only [List.getD_cons_zero, Nat.add_zero] at h0
      unfold crc16_fold
      rw [h0]
      apply ih qs (idx + 1) _ (by simpa using hlen)
      intro i hi
      have hi2 := hnorm (i + 1) (by simpa using Nat.succ_lt_succ hi)
      simp only [List.getD_cons_succ] at hi2
      have harith : idx + (i + 1) = idx + 1 + i := by omega
      rw [harith] at hi2
      exact hi2

/-- Bytes 2 and 3 do not contribute to the CRC: patching them leaves the
fold unchanged. -/
theorem crc16_fold_set23 (base : List Nat) (x y : Nat) :
    crc16_fold 0 0 ((base.set 2 x).set 3 y) = crc16_fold 0 0 base := by
  apply crc16_fold_congr
  · simp
  · intro i hi
    rcases Nat.lt_or_ge i 2 with h2 | h2
    · have hne3 : (3 : Nat) ≠ i := by omega
      have hne2 : (2 : Nat) ≠ i := by omega
      simp [List.getD_eq_getElem?_getD, List.getElem?_set_ne hne3, List.getElem?_set_ne hne2]
    · rcases Nat.lt_or_ge i 4 with h4 | h4
      · have : i = 2 ∨ i = 3 := by omega
        rcases this with h | h <;> subst h <;> simp [vospi_norm_byte]
      · have hne3 : (3 : Nat) ≠ i := by omega
        have hne2 : (2 : Nat) ≠ i := by omega
        simp [List.getD_eq_getElem?_getD, List.getElem?_set_ne hne3, List.getElem?_set_ne hne2]

/-! ### Facts about the synthesized packets -/

theorem packetId_lt (pn seg : Nat) : packetId pn seg < 65536 := by
  unfold packetId
  split <;> omega

theorem mk_packet_length (pn seg seed : Nat) : (mk_packet pn seg seed).length = 164 := by
  unfold mk_packet
  simp

theorem getD_set_self (l : List Nat) (i v : Nat) (h : i < l.length) :
    (l.set i v).getD i 0 = v := by
  simp [List.getD_eq_getElem?_getD, List.getElem?_set_self', List.getElem?_eq_getElem, h]

theorem getD_set_ne (l : List Nat) (i v j : Nat) (h : i ≠ j) :
    (l.set i v).getD j 0 = l.getD j 0 := by
  simp [List.getD_eq_getElem?_getD, List.getElem?_set_ne h]

theorem set23_getD (base : List Nat) (x y : Nat) (h : 4 ≤ base.length) :
    ((base.set 2 x).set 3 y).getD 2 0 = x ∧ ((base.set 2 x).set 3 y).getD 3 0 = y := by
  constructor
  · rw [getD_set_ne _ _ _ _ (by omega : (3 : Nat) ≠ 2)]
    exact getD_set_self _ _ _ (by omega)
  · exact getD_set_self _ _ _ (by simp only [List.length_set]; omega)

theorem mk_packet_getD_0 (pn seg seed : Nat) :
    (mk_packet pn seg seed).getD 0 0 = packetId pn seg / 256 := by
  unfold mk_packet
  dsimp only []
  rw [getD_set_ne _ _ _ _ (by omega : (3 : Nat) ≠ 0),
    getD_set_ne _ _ _ _ (by omega : (2 : Nat) ≠ 0)]
  rfl

theorem mk_packet_getD_1 (pn seg seed : Nat) :
    (mk_packet pn seg seed).getD 1 0 = packetId pn seg % 256 := by
  unfold mk_packet
  dsimp only []
  rw [getD_set_ne _ _ _ _ (by omega : (3 : Nat) ≠ 1),
    getD_set_ne _ _ _ _ (by omega : (2 : Nat) ≠ 1)]
  rfl

theorem mk_packet_crc_field (pn seg seed : Nat) :
    (mk_packet pn seg seed).getD 2 0 = crc16_fold 0 0 (mk_packet pn seg seed) / 256 ∧
    (mk_packet pn seg seed).getD 3 0 = crc16_fold 0 0 (mk_packet pn seg seed) % 256 := by
  unfold mk_packet
  dsimp only []
  rw [crc16_fold_set23]
  exact set23_getD _ _ _ (by simp)

theorem mk_packet_payload (pn seg seed : Nat) :
    (mk_packet pn seg seed).drop 4 = (List.range 160).map (fun i => (seed + i) % 256) := by
  unfold mk_packet
  dsimp only []
  rw [List.drop_set_of_lt _ _ (by norm_num : (3 : Nat) < 4),
    List.drop_set_of_lt _ _ (by norm_num : (2 : Nat) < 4)]
  rfl

/-- Parsing a synthesized packet recovers the intended header: line number
`pn`, not a discard, and the packet's own normalized CRC in the CRC field. -/
theorem parse_mk_packet (pn seg seed : Nat) (hpn : pn < 4096) (hseg : seg % 8 ≠ 15) :
    parse_packet_header (mk_packet pn seg seed) =
      some { packet_id := packetId pn seg
             packet_number := pn
             crc := crc16_fold 0 0 (mk_packet pn seg seed)
             is_discard := false } := by
  have hid := packetId_lt pn seg
  have hc := crc16_fold_lt (mk_packet pn seg seed) 0 0 (by norm_num)
  unfold parse_packet_header
  rw [if_neg (by rw [mk_packet_length]; norm_num)]
  dsimp only []
  rw [mk_packet_getD_0, mk_packet_getD_1, (mk_packet_crc_field pn seg seed).1,
    (mk_packet_crc_field pn seg seed).2]
  have hID : packetId pn seg / 256 % 256 * 256 + packetId pn seg % 256 % 256 =
      packetId pn seg := by omega
  have hCRC : crc16_fold 0 0 (mk_packet pn seg seed) / 256 % 256 * 256 +
      crc16_fold 0 0 (mk_packet pn seg seed) % 256 % 256 =
      crc16_fold 0 0 (mk_packet pn seg seed) := by omega
  have hnum : packetId pn seg % 4096 = pn := by
    unfold packetId
    split <;> omega
  have hdisc : packetId pn seg / 4096 ≠ 15 := by
    unfold packetId
    split <;> omega
  simp only [Option.some.injEq, PacketHeader.mk.injEq, decide_eq_false_iff_not]
  refine ⟨by omega, by omega, by omega, by omega⟩

/-- A synthesized packet passes `validate_packet_crc`. -/
theorem validate_mk_packet (pn seg seed : Nat) (hpn : pn < 4096) (hseg : seg % 8 ≠ 15) :
    validate_packet_crc (mk_packet pn seg seed) = true := by
  unfold validate_packet_crc lepton_packet_crc16_spec
  rw [parse_mk_packet pn seg seed hpn hseg, if_neg (by rw [mk_packet_length]; norm_num)]
  simp

/-! ### Unfolding and induction principles for the packet loop -/

theorem read_frame_loop_exit {ε : Type} {src : Nat → Except ε (List Nat)}
    {cfg : RobustCaptureConfig} {locked : Bool} {st : CaptureState}
    (h : cfg.segments_per_frame < st.expected_segment) :
    read_frame_loop src cfg locked st = (.ok (), st) := by
  unfold read_frame_loop
  rw [if_pos h]

theorem read_frame_loop_fatal {ε : Type} {src : Nat → Except ε (List Nat)}
    {cfg : RobustCaptureConfig} {locked : Bool} {st st2 : CaptureState}
    {e : CaptureError ε}
    (h1 : ¬ cfg.segments_per_frame < st.expected_segment)
    (h2 : read_packet_step src cfg locked st = .fatal e st2) :
    read_frame_loop src cfg locked st = (.error e, st2) := by
  unfold read_frame_loop
  rw [if_neg h1]
  split
  · rename_i e2 st3 heq
    rw [h2] at heq
    cases heq
    rfl
  · rename_i st3 heq
    rw [h2] at heq
    cases heq

theorem read_frame_loop_next {ε : Type} {src : Nat → Except ε (List Nat)}
    {cfg : RobustCaptureConfig} {locked : Bool} {st st2 : CaptureState}
    (h1 : ¬ cfg.segments_per_frame < st.expected_segment)
    (h2 : read_packet_step src cfg locked st = .next st2) :
    read_frame_loop src cfg locked st = read_frame_loop src cfg locked st2 := by
  conv_lhs => unfold read_frame_loop
  rw [if_neg h1]
  split
  · rename_i e2 st3 heq
    rw [h2] at heq
    cases heq
  · rename_i st3 heq
    rw [h2] at heq
    cases heq
    rfl

/-- Master invariant/classification principle for the packet loop: if `R`
is preserved by every continued step and every fatal step establishes `Q`
of the error and final state, then a loop run from an `R` state ends in an
`R` state on success and a `Q` outcome on failure. -/
theorem read_frame_loop_elim {ε : Type} (src : Nat → Except ε (List Nat))
    (cfg : RobustCaptureConfig) (locked : Bool)
    (R : CaptureState → Prop) (Q : CaptureError ε → CaptureState → Prop)
    (hnext : ∀ st st2, R st → ¬ cfg.segments_per_frame < st.expected_segment →
      read_packet_step src cfg locked st = .next st2 → R st2)
    (hfatal : ∀ st e st2, R st → ¬ cfg.segments_per_frame < st.expected_segment →
      read_packet_step src cfg locked st = .fatal e st2 → Q e st2) :
    ∀ st, R st →
      (∀ st2, read_frame_loop src cfg locked st = (.ok (), st2) → R st2) ∧
      (∀ e st2, read_frame_loop src cfg locked st = (.error e, st2) → Q e st2) := by
  have main : ∀ n (st : CaptureState), cfg.timeout_packets + 1 - st.packets_seen ≤ n →
      R st →
      (∀ st2, read_frame_loop src cfg locked st = (.ok (), st2) → R st2) ∧
      (∀ e st2, read_frame_loop src cfg locked st = (.error e, st2) → Q e st2) := by
    intro n
    induction n using Nat.strong_induction_on with
    | _ n ih =>
      intro st hn hR
      by_cases hexit : cfg.segments_per_frame < st.expected_segment
      · rw [read_frame_loop_exit hexit]
        constructor
        · intro st2 heq
          cases heq
          exact hR
        · intro e st2 heq
          cases heq
      · rcases hstep : read_packet_step src cfg locked st with ⟨e, st2⟩ | st2
        · rw [read_frame_loop_fatal hexit hstep]
          constructor
          · intro st3 heq
            cases heq
          · intro e2 st3 heq
            cases heq
            exact hfatal st e st2 hR hexit hstep
        · rw [read_frame_loop_next hexit hstep]
          have hs := read_packet_step_next hstep
          exact ih (cfg.timeout_packets + 1 - st2.packets_seen) (by omega) st2 (by omega)
            (hnext st st2 hR hexit hstep)
  intro st
  exact main (cfg.timeout_packets + 1 - st.packets_seen) st (le_refl _)

/-! ### Buffer arithmetic -/

theorem buffer_fill_length {cfg : RobustCaptureConfig} (d : List Nat) :
    (buffer_fill cfg d).length = cfg.packet_size_bytes := by
  unfold buffer_fill
  simp only [List.length_append, List.length_take, List.length_replicate]
  omega

theorem buffer_fill_of_length {cfg : RobustCaptureConfig} {d : List Nat}
    (h : d.length = cfg.packet_size_bytes) : buffer_fill cfg d = d := by
  unfold buffer_fill
  rw [h, Nat.sub_self, List.replicate_zero, List.append_nil, ← h, List.take_length]

theorem write_bytes_nil (f : List Nat) (s : Nat) : write_bytes f s [] = f := by
  unfold write_bytes
  simp

theorem write_bytes_length {f pl : List Nat} {s : Nat} (h : s + pl.length ≤ f.length) :
    (write_bytes f s pl).length = f.length := by
  unfold write_bytes
  simp only [List.length_append, List.length_take, List.length_drop]
  omega

theorem write_bytes_drop {f pl : List Nat} {s n : Nat} (h : s + pl.length ≤ n)
    (h2 : n ≤ f.length) : (write_bytes f s pl).drop n = f.drop n := by
  unfold write_bytes
  rw [List.append_assoc, List.drop_append_eq_append_drop]
  have hts : (f.take s).length = s := by simp; omega
  rw [List.drop_eq_nil_of_le (by omega), hts, List.nil_append,
    List.drop_append_eq_append_drop]
  have hpl : pl.length ≤ n - s := by omega
  rw [List.drop_eq_nil_of_le (by omega), List.nil_append, List.drop_drop]
  congr 1
  omega

/-- A continued or failed step never changes the latch, the sync state,
the tick counter, or the per-attempt meta fields that the loop does not
own (`capture_ticks`, `valid`, `resync_count`); the cumulative counters
never decrease; and `readIdx` and `packets_seen` advance in lockstep by at
most one. -/
theorem read_packet_step_state {ε : Type} (src : Nat → Except ε (List Nat))
    (cfg : RobustCaptureConfig) (locked : Bool) (st : CaptureState) :
    ((read_packet_step src cfg locked st).state).first_valid_synced = st.first_valid_synced ∧
    ((read_packet_step src cfg locked st).state).sync_state = st.sync_state ∧
    ((read_packet_step src cfg locked st).state).tickIdx = st.tickIdx ∧
    ((read_packet_step src cfg locked st).state).meta.capture_ticks = st.meta.capture_ticks ∧
    ((read_packet_step src cfg locked st).state).meta.valid = st.meta.valid ∧
    ((read_packet_step src cfg locked st).state).meta.resync_count = st.meta.resync_count ∧
    st.diagnostics.discard_count ≤
      ((read_packet_step src cfg locked st).state).diagnostics.discard_count ∧
    st.diagnostics.crc_error_count ≤
      ((read_packet_step src cfg locked st).state).diagnostics.crc_error_count ∧
    st.diagnostics.bad_line_count ≤
      ((read_packet_step src cfg locked st).state).diagnostics.bad_line_count ∧
    st.diagnostics.resync_count ≤
      ((read_packet_step src cfg locked st).state).diagnostics.resync_count ∧
    ((read_packet_step src cfg locked st).state).readIdx + st.packets_seen =
      st.readIdx + ((read_packet_step src cfg locked st).state).packets_seen ∧
    st.readIdx ≤ ((read_packet_step src cfg locked st).state).readIdx ∧
    ((read_packet_step src cfg locked st).state).readIdx ≤ st.readIdx + 1 := by
  unfold read_packet_step
  rcases hs : src st.readIdx with e | d
  · simp [StepResult.state]
  · dsimp only []
    split
    · simp [StepResult.state]
      omega
    · split
      · simp [StepResult.state]
        omega
      · rename_i hto hd hp
        have hh := handle_header_state (ε := ε) cfg locked (buffer_fill cfg d) hd
          { st with readIdx := st.readIdx + 1, packets_seen := st.packets_seen + 1 }
        obtain ⟨h1, h2, h3, h4, h5, h6, h7, h8, h9, h10, h11, h12⟩ := hh
        refine ⟨by rw [h3], by rw [h4], by rw [h5], by rw [h6], by rw [h7], by rw [h8],
          h9, h10, h11, h12, ?_, ?_, ?_⟩ <;> simp only [h1, h2] <;> (try simp) <;> omega

/-- Classification of fatal step outcomes: the packet loop never produces
`RetryLimitExceeded` or `SyncLost`; `CrcMismatch`, `LineOutOfOrder` and
`SegmentOutOfOrder` are only produced while `locked`; and when the
per-attempt packet budget has just been exceeded the error is `Timeout`. -/
theorem read_packet_step_fatal_class {ε : Type} {src : Nat → Except ε (List Nat)}
    {cfg : RobustCaptureConfig} {locked : Bool} {st st2 : CaptureState}
    {e : CaptureError ε}
    (h : read_packet_step src cfg locked st = .fatal e st2) :
    e ≠ .RetryLimitExceeded ∧ e ≠ .SyncLost ∧
    (locked = false → isImmediateErr e = false) ∧
    (st.packets_seen ≤ cfg.timeout_packets → cfg.timeout_packets < st2.packets_seen →
      e = .Timeout) := by
  unfold read_packet_step at h
  rcases hs : src st.readIdx with e2 | d <;> rw [hs] at h
  · cases h
    refine ⟨by simp, by simp, by (intro hl; simp [isImmediateErr]), ?_⟩
    intro h1 h2
    omega
  · dsimp only [] at h
    unfold handle_header at h
    dsimp only [] at h
    repeat' split at h
    all_goals cases h
    all_goals refine ⟨by simp, by simp, by (intro hl; simp_all [isImmediateErr]), ?_⟩
    all_goals intro h1 h2
    all_goals (try rfl)
    all_goals (try simp at h2)
    all_goals omega

/-- Accepting a packet with in-range cursors writes only inside the first
`required_frame_buffer_len` bytes of the frame buffer, and keeps the
cursors in range (`expected_packet_number` wraps strictly below
`lines_per_segment`, which must be positive). -/
theorem accept_packet_frame {cfg : RobustCaptureConfig} {st : CaptureState} {buf : List Nat}
    (hbuf : buf.length = cfg.packet_size_bytes)
    (hlines : 1 ≤ cfg.lines_per_segment)
    (hseg1 : 1 ≤ st.expected_segment)
    (hsegN : st.expected_segment ≤ cfg.segments_per_frame)
    (hepn : st.expected_packet_number < cfg.lines_per_segment)
    (hflen : required_frame_buffer_len cfg ≤ st.frame.length) :
    (accept_packet cfg st buf).frame.length = st.frame.length ∧
    (accept_packet cfg st buf).frame.drop (required_frame_buffer_len cfg) =
      st.frame.drop (required_frame_buffer_len cfg) ∧
    1 ≤ (accept_packet cfg st buf).expected_segment ∧
    (accept_packet cfg st buf).expected_packet_number < cfg.lines_per_segment := by
  have hplen : (buf.drop 4).length = cfg.packet_size_bytes - 4 := by simp [hbuf]
  by_cases hps : cfg.packet_size_bytes < 4
  · have hnil : buf.drop 4 = [] := List.eq_nil_of_length_eq_zero (by omega)
    unfold accept_packet
    dsimp only []
    rw [hnil, write_bytes_nil]
    constructor
    · split <;> simp
    constructor
    · split <;> simp
    constructor
    · split <;> simp <;> omega
    · split <;> simp <;> omega
  · have hreq : required_frame_buffer_len cfg =
        (cfg.packet_size_bytes - 4) * cfg.lines_per_segment * cfg.segments_per_frame := by
      unfold required_frame_buffer_len
      rw [if_neg hps]
    have hsl : cfg.lines_per_segment ≤ st.expected_segment * cfg.lines_per_segment :=
      Nat.le_mul_of_pos_left _ (by omega)
    have hsl2 : st.expected_segment * cfg.lines_per_segment ≤
        cfg.segments_per_frame * cfg.lines_per_segment :=
      Nat.mul_le_mul_right _ hsegN
    have hsub : (st.expected_segment - 1) * cfg.lines_per_segment =
        st.expected_segment * cfg.lines_per_segment - cfg.lines_per_segment :=
      Nat.sub_one_mul _ _
    have hfl1 : (st.expected_segment - 1) * cfg.lines_per_segment +
        st.expected_packet_number + 1 ≤
        cfg.lines_per_segment * cfg.segments_per_frame := by
      rw [Nat.mul_comm cfg.lines_per_segment cfg.segments_per_frame]
      omega
    have hmul := Nat.mul_le_mul_right (cfg.packet_size_bytes - 4) hfl1
    have hbound : ((st.expected_segment - 1) * cfg.lines_per_segment +
        st.expected_packet_number) * (cfg.packet_size_bytes - 4) +
        (cfg.packet_size_bytes - 4) ≤ required_frame_buffer_len cfg := by
      rw [hreq]
      calc ((st.expected_segment - 1) * cfg.lines_per_segment +
              st.expected_packet_number) * (cfg.packet_size_bytes - 4) +
              (cfg.packet_size_bytes - 4)
          = ((st.expected_segment - 1) * cfg.lines_per_segment +
              st.expected_packet_number + 1) * (cfg.packet_size_bytes - 4) := by ring
        _ ≤ cfg.lines_per_segment * cfg.segments_per_frame *
              (cfg.packet_size_bytes - 4) := hmul
        _ = (cfg.packet_size_bytes - 4) * cfg.lines_per_segment *
              cfg.segments_per_frame := by ring
    unfold accept_packet
    dsimp only []
    constructor
    · have := @write_bytes_length st.frame (buf.drop 4)
        (((st.expected_segment - 1) * cfg.lines_per_segment +
          st.expected_packet_number) * (cfg.packet_size_bytes - 4)) (by omega)
      split <;> simpa using this
    constructor
    · have := @write_bytes_drop st.frame (buf.drop 4)
        (((st.expected_segment - 1) * cfg.lines_per_segment +
          st.expected_packet_number) * (cfg.packet_size_bytes - 4))
        (required_frame_buffer_len cfg) (by omega) hflen
      split <;> simpa using this
    constructor
    · split <;> simp <;> omega
    · split <;> simp <;> omega

set_option maxHeartbeats 1000000 in
/-- Step-level frame safety: with in-range cursors and a positive
`lines_per_segment`, one step never touches the frame buffer beyond
`required_frame_buffer_len` and keeps the cursors in range. -/
theorem read_packet_step_frame {ε : Type} {src : Nat → Except ε (List Nat)}
    {cfg : RobustCaptureConfig} {locked : Bool} {st : CaptureState}
    (hlines : 1 ≤ cfg.lines_per_segment)
    (hseg1 : 1 ≤ st.expected_segment)
    (hguard : ¬ cfg.segments_per_frame < st.expected_segment)
    (hepn : st.expected_packet_number < cfg.lines_per_segment)
    (hflen : required_frame_buffer_len cfg ≤ st.frame.length) :
    ((read_packet_step src cfg locked st).state).frame.length = st.frame.length ∧
    ((read_packet_step src cfg locked st).state).frame.drop (required_frame_buffer_len cfg) =
      st.frame.drop (required_frame_buffer_len cfg) ∧
    1 ≤ ((read_packet_step src cfg locked st).state).expected_segment ∧
    ((read_packet_step src cfg locked st).state).expected_packet_number <
      cfg.lines_per_segment := by
  rcases hh : read_packet_step src cfg locked st with ⟨e, st2⟩ | st2 <;>
    simp only [StepResult.state] <;>
    · unfold read_packet_step at hh
      rcases hs : src st.readIdx with e2 | d <;> rw [hs] at hh
      all_goals dsimp only [] at hh
      all_goals try (unfold handle_header at hh; dsimp only [] at hh)
      all_goals repeat' split at hh
      all_goals cases hh
      all_goals
        first
          | exact ⟨rfl, rfl, hseg1, hepn⟩
          | (refine ⟨rfl, rfl, ?_, ?_⟩ <;> simp <;> omega)
          | exact accept_packet_frame (buffer_fill_length _) hlines hseg1
              (show st.expected_segment ≤ cfg.segments_per_frame by omega) hepn hflen

/-! ### The `read_one_frame` contract -/

/-- Pointwise ordering of the cumulative diagnostics counters. -/
def diagMono (a b : FrameDiagnostics) : Prop :=
  a.discard_count ≤ b.discard_count ∧ a.crc_error_count ≤ b.crc_error_count ∧
  a.bad_line_count ≤ b.bad_line_count ∧ a.resync_count ≤ b.resync_count

theorem diagMono_refl (a : FrameDiagnostics) : diagMono a a :=
  ⟨le_refl _, le_refl _, le_refl _, le_refl _⟩

theorem diagMono_trans {a b c : FrameDiagnostics} (h1 : diagMono a b) (h2 : diagMono b c) :
    diagMono a c :=
  ⟨le_trans h1.1 h2.1, le_trans h1.2.1 h2.2.1, le_trans h1.2.2.1 h2.2.2.1,
    le_trans h1.2.2.2 h2.2.2.2⟩

/-- Fields of the state that the packet loop never modifies. -/
def metaSame (st x : CaptureState) : Prop :=
  x.first_valid_synced = st.first_valid_synced ∧ x.tickIdx = st.tickIdx ∧
  x.meta.capture_ticks = st.meta.capture_ticks ∧ x.meta.valid = st.meta.valid ∧
  x.meta.resync_count = st.meta.resync_count

/-- Frame-buffer safety relative to a reference state: under a positive
`lines_per_segment` and an adequate buffer, the length is unchanged, the
bytes past `required_frame_buffer_len` are unchanged, and the cursors are
in range. -/
def asmInv (cfg : RobustCaptureConfig) (st x : CaptureState) : Prop :=
  1 ≤ cfg.lines_per_segment ∧ required_frame_buffer_len cfg ≤ st.frame.length →
    x.frame.length = st.frame.length ∧
    x.frame.drop (required_frame_buffer_len cfg) =
      st.frame.drop (required_frame_buffer_len cfg) ∧
    1 ≤ x.expected_segment ∧ x.expected_packet_number < cfg.lines_per_segment

/-- The full behavioural contract of `read_one_frame` used by the
controller proofs: untouched fields, monotone diagnostics, packet
accounting against `timeout_packets`, error classification and frame
safety. -/
theorem read_one_frame_spec {ε : Type} (src : Nat → Except ε (List Nat))
    (cfg : RobustCaptureConfig) (st : CaptureState) :
    metaSame st (read_one_frame src cfg st).2 ∧
    diagMono st.diagnostics (read_one_frame src cfg st).2.diagnostics ∧
    (read_one_frame src cfg st).2.readIdx ≤ st.readIdx + (cfg.timeout_packets + 1) ∧
    st.readIdx ≤ (read_one_frame src cfg st).2.readIdx ∧
    (∀ e, (read_one_frame src cfg st).1 = .error e →
      (read_one_frame src cfg st).2.sync_state = st.sync_state ∧
      e ≠ .RetryLimitExceeded ∧ e ≠ .SyncLost ∧
      (st.sync_state ≠ SyncState.Locked → isImmediateErr e = false)) ∧
    (¬ cfg.packet_size_bytes < 4 →
      (read_one_frame src cfg st).2.readIdx =
        st.readIdx + (read_one_frame src cfg st).2.packets_seen ∧
      (read_one_frame src cfg st).2.packets_seen ≤ cfg.timeout_packets + 1 ∧
      ((read_one_frame src cfg st).2.packets_seen = cfg.timeout_packets + 1 →
        (read_one_frame src cfg st).1 = .error .Timeout)) ∧
    (1 ≤ cfg.lines_per_segment ∧ required_frame_buffer_len cfg ≤ st.frame.length →
      (read_one_frame src cfg st).2.frame.length = st.frame.length ∧
      (read_one_frame src cfg st).2.frame.drop (required_frame_buffer_len cfg) =
        st.frame.drop (required_frame_buffer_len cfg)) := by
  unfold read_one_frame
  by_cases hps : cfg.packet_size_bytes < 4
  · rw [if_pos hps]
    refine ⟨⟨rfl, rfl, rfl, rfl, rfl⟩, diagMono_refl _, by dsimp only []; omega, le_refl _,
      ?_, ?_, ?_⟩
    · intro e he
      simp only at he
      cases he
      exact ⟨rfl, by simp, by simp, fun _ => by simp [isImmediateErr]⟩
    · intro h
      exact absurd hps h
    · intro _
      exact ⟨rfl, rfl⟩
  · rw [if_neg hps]
    dsimp only []
    have helim := read_frame_loop_elim src cfg (decide (st.sync_state = SyncState.Locked))
      (fun x => metaSame st x ∧ x.sync_state = st.sync_state ∧
        diagMono st.diagnostics x.diagnostics ∧
        x.packets_seen ≤ cfg.timeout_packets ∧
        x.readIdx = st.readIdx + x.packets_seen ∧ asmInv cfg st x)
      (fun e x => metaSame st x ∧ x.sync_state = st.sync_state ∧
        diagMono st.diagnostics x.diagnostics ∧
        x.packets_seen ≤ cfg.timeout_packets + 1 ∧
        x.readIdx = st.readIdx + x.packets_seen ∧
        (x.packets_seen = cfg.timeout_packets + 1 → e = .Timeout) ∧
        e ≠ .RetryLimitExceeded ∧ e ≠ .SyncLost ∧
        (st.sync_state ≠ SyncState.Locked → isImmediateErr e = false) ∧
        asmInv cfg st x)
      ?hnext ?hfatal
      { st with expected_segment := 1, expected_packet_number := 0, packets_seen := 0 }
      ?hR0
    case hnext =>
      intro x x2 hR hguard hstep
      obtain ⟨hms, hsync, hdm, hseen, hidx, hinv⟩ := hR
      have hst := read_packet_step_state src cfg (decide (st.sync_state = SyncState.Locked)) x
      rw [hstep] at hst
      simp only [StepResult.state] at hst
      obtain ⟨s1, s2, s3, s4, s5, s6, s7, s8, s9, s10, s11, s12, s13⟩ := hst
      have hnx := read_packet_step_next hstep
      refine ⟨⟨by rw [s1, hms.1], by rw [s3, hms.2.1], by rw [s4, hms.2.2.1],
        by rw [s5, hms.2.2.2.1], by rw [s6, hms.2.2.2.2]⟩,
        by rw [s2, hsync], diagMono_trans hdm ⟨s7, s8, s9, s10⟩, by omega, by omega, ?_⟩
      intro hcond
      obtain ⟨hl1, hl2, hc1, hc2⟩ := hinv hcond
      have hfr := @read_packet_step_frame ε src cfg
        (decide (st.sync_state = SyncState.Locked)) x hcond.1 hc1 hguard hc2
        (by omega)
      rw [hstep] at hfr
      simp only [StepResult.state] at hfr
      exact ⟨by rw [hfr.1, hl1], by rw [hfr.2.1, hl2], hfr.2.2.1, hfr.2.2.2⟩
    case hfatal =>
      intro x e x2 hR hguard hstep
      obtain ⟨hms, hsync, hdm, hseen, hidx, hinv⟩ := hR
      have hst := read_packet_step_state src cfg (decide (st.sync_state = SyncState.Locked)) x
      rw [hstep] at hst
      simp only [StepResult.state] at hst
      obtain ⟨s1, s2, s3, s4, s5, s6, s7, s8, s9, s10, s11, s12, s13⟩ := hst
      have hcl := read_packet_step_fatal_class hstep
      refine ⟨⟨by rw [s1, hms.1], by rw [s3, hms.2.1], by rw [s4, hms.2.2.1],
        by rw [s5, hms.2.2.2.1], by rw [s6, hms.2.2.2.2]⟩,
        by rw [s2, hsync], diagMono_trans hdm ⟨s7, s8, s9, s10⟩, by omega, by omega,
        ?_, hcl.1, hcl.2.1, ?_, ?_⟩
      · intro hfull
        exact hcl.2.2.2 hseen (by omega)
      · intro hns
        exact hcl.2.2.1 (by simp [hns])
      · intro hcond
        obtain ⟨hl1, hl2, hc1, hc2⟩ := hinv hcond
        have hfr := @read_packet_step_frame ε src cfg
          (decide (st.sync_state = SyncState.Locked)) x hcond.1 hc1 hguard hc2
          (by omega)
        rw [hstep] at hfr
        simp only [StepResult.state] at hfr
        exact ⟨by rw [hfr.1, hl1], by rw [hfr.2.1, hl2], hfr.2.2.1, hfr.2.2.2⟩
    case hR0 =>
      refine ⟨⟨rfl, rfl, rfl, rfl, rfl⟩, rfl, diagMono_refl _, by simp, by simp, ?_⟩
      intro hcond
      exact ⟨rfl, rfl, by simp, by simp; omega⟩
    rcases hloop : read_frame_loop src cfg (decide (st.sync_state = SyncState.Locked))
        { st with expected_segment := 1, expected_packet_number := 0, packets_seen := 0 }
      with ⟨res, stf⟩
    obtain ⟨hok, herr⟩ := helim
    rcases res with e | u
    · have hQ := herr e stf hloop
      obtain ⟨hms, hsync, hdm, hseen, hidx, hto, hrle, hsl, himm, hinv⟩ := hQ
      dsimp only []
      refine ⟨⟨hms.1, hms.2.1, hms.2.2.1, hms.2.2.2.1, hms.2.2.2.2⟩, hdm, by omega,
        by omega, ?_, ?_, ?_⟩
      · intro e2 he
        cases he
        exact ⟨hsync, hrle, hsl, himm⟩
      · intro _
        refine ⟨by omega, by omega, ?_⟩
        intro h
        rw [hto h]
      · intro hcond
        obtain ⟨hl1, hl2, _, _⟩ := hinv hcond
        exact ⟨hl1, hl2⟩
    · rcases u
      have hR := hok stf hloop
      obtain ⟨hms, hsync, hdm, hseen, hidx, hinv⟩ := hR
      dsimp only []
      refine ⟨⟨hms.1, hms.2.1, hms.2.2.1, hms.2.2.2.1, hms.2.2.2.2⟩, hdm, by omega,
        by omega, ?_, ?_, ?_⟩
      · intro e he
        simp at he
      · intro _
        exact ⟨by omega, by omega, fun h => absurd h (by omega)⟩
      · intro hcond
        obtain ⟨hl1, hl2, _, _⟩ := hinv hcond
        exact ⟨hl1, hl2⟩
/-! ### The controller contract -/

/-- Draining backoff packets only advances `readIdx`, by at most
`backoff_packet_reads`. -/
theorem backoff_reads_spec {ε : Type} (src : Nat → Except ε (List Nat)) :
    ∀ (n : Nat) (st : CaptureState),
      (backoff_reads src n st).2 = { st with readIdx := (backoff_reads src n st).2.readIdx } ∧
      st.readIdx ≤ (backoff_reads src n st).2.readIdx ∧
      (backoff_reads src n st).2.readIdx ≤ st.readIdx + n := by
  intro n
  induction n with
  | zero => intro st; exact ⟨rfl, le_refl _, by simp [backoff_reads]⟩
  | succ m ih =>
    intro st
    unfold backoff_reads
    rcases hs : src st.readIdx with e | d
    · dsimp only []
      exact ⟨rfl, le_refl _, by omega⟩
    · dsimp only []
      have := ih { st with readIdx := st.readIdx + 1 }
      refine ⟨?_, by have h2 := this.2.1; simp at h2; omega, by have h2 := this.2.2; simp at h2; omega⟩
      rw [this.1]

theorem capture_loop_retry_exit {ε : Type} {src : Nat → Except ε (List Nat)}
    {cfg : RobustCaptureConfig} {ticks : Nat → Nat} {fa ra : Nat}
    {le : Option (CaptureError ε)} {st : CaptureState}
    (h : cfg.max_frame_retries < fa) :
    capture_loop src cfg ticks fa ra le st = (.error (le.getD .RetryLimitExceeded), st) := by
  unfold capture_loop
  rw [if_pos h]

theorem capture_loop_synclost {ε : Type} {src : Nat → Except ε (List Nat)}
    {cfg : RobustCaptureConfig} {ticks : Nat → Nat} {fa ra : Nat}
    {le : Option (CaptureError ε)} {st : CaptureState}
    (h1 : ¬ cfg.max_frame_retries < fa) (h2 : cfg.max_resync_attempts < ra) :
    capture_loop src cfg ticks fa ra le st =
      (.error .SyncLost, { st with sync_state := SyncState.Unsynced }) := by
  unfold capture_loop
  rw [if_neg h1, if_pos h2]

theorem capture_loop_success {ε : Type} {src : Nat → Except ε (List Nat)}
    {cfg : RobustCaptureConfig} {ticks : Nat → Nat} {fa ra : Nat}
    {le : Option (CaptureError ε)} {st st2 : CaptureState}
    (h1 : ¬ cfg.max_frame_retries < fa) (h2 : ¬ cfg.max_resync_attempts < ra)
    (h3 : read_one_frame src cfg (begin_attempt cfg ticks st) = (.ok (), st2)) :
    capture_loop src cfg ticks fa ra le st =
      (.ok { st2.meta with valid := true },
        { st2 with first_valid_synced := true, meta := { st2.meta with valid := true } }) := by
  unfold capture_loop
  rw [if_neg h1, if_neg h2]
  dsimp only []
  rw [h3]

theorem capture_loop_spi {ε : Type} {src : Nat → Except ε (List Nat)}
    {cfg : RobustCaptureConfig} {ticks : Nat → Nat} {fa ra : Nat}
    {le : Option (CaptureError ε)} {st st2 : CaptureState} {err : CaptureError ε}
    (h1 : ¬ cfg.max_frame_retries < fa) (h2 : ¬ cfg.max_resync_attempts < ra)
    (h3 : read_one_frame src cfg (begin_attempt cfg ticks st) = (.error err, st2))
    (h4 : isSpiErr err = true) :
    capture_loop src cfg ticks fa ra le st = (.error err, st2) := by
  unfold capture_loop
  rw [if_neg h1, if_neg h2]
  dsimp only []
  rw [h3]
  dsimp only []
  rw [if_pos h4]

theorem capture_loop_immediate {ε : Type} {src : Nat → Except ε (List Nat)}
    {cfg : RobustCaptureConfig} {ticks : Nat → Nat} {fa ra : Nat}
    {le : Option (CaptureError ε)} {st st2 : CaptureState} {err : CaptureError ε}
    (h1 : ¬ cfg.max_frame_retries < fa) (h2 : ¬ cfg.max_resync_attempts < ra)
    (h3 : read_one_frame src cfg (begin_attempt cfg ticks st) = (.error err, st2))
    (h4 : isSpiErr err = false)
    (h5 : st2.sync_state = SyncState.Locked ∧ isImmediateErr err = true) :
    capture_loop src cfg ticks fa ra le st = (.error err, resync_bump st2) := by
  unfold capture_loop
  rw [if_neg h1, if_neg h2]
  dsimp only []
  rw [h3]
  dsimp only []
  rw [if_neg (by simp [h4]), if_pos h5]

theorem capture_loop_resync {ε : Type} {src : Nat → Except ε (List Nat)}
    {cfg : RobustCaptureConfig} {ticks : Nat → Nat} {fa ra : Nat}
    {le : Option (CaptureError ε)} {st st2 st4 : CaptureState} {err : CaptureError ε}
    (h1 : ¬ cfg.max_frame_retries < fa) (h2 : ¬ cfg.max_resync_attempts < ra)
    (h3 : read_one_frame src cfg (begin_attempt cfg ticks st) = (.error err, st2))
    (h4 : isSpiErr err = false)
    (h5 : ¬ (st2.sync_state = SyncState.Locked ∧ isImmediateErr err = true))
    (h6 : backoff_reads src cfg.backoff_packet_reads (resync_bump st2) = (.ok (), st4)) :
    capture_loop src cfg ticks fa ra le st =
      if cfg.max_resync_attempts < ra + 1 then (.error .SyncLost, st4)
      else if cfg.max_frame_retries < fa + 1 then (.error err, st4)
      else capture_loop src cfg ticks (fa + 1) (ra + 1) (some err) st4 := by
  conv_lhs => unfold capture_loop
  rw [if_neg h1, if_neg h2]
  dsimp only []
  rw [h3]
  dsimp only []
  rw [if_neg (by simp [h4]), if_neg h5, h6]
  dsimp only []
  by_cases hra : cfg.max_resync_attempts < ra + 1
  · simp [hra]
  · by_cases hfa : cfg.max_frame_retries < fa + 1
    · simp [hra, hfa]
    · simp [hra, hfa]

theorem capture_loop_backoff_spi {ε : Type} {src : Nat → Except ε (List Nat)}
    {cfg : RobustCaptureConfig} {ticks : Nat → Nat} {fa ra : Nat}
    {le : Option (CaptureError ε)} {st st2 st4 : CaptureState} {err : CaptureError ε}
    {e2 : ε}
    (h1 : ¬ cfg.max_frame_retries < fa) (h2 : ¬ cfg.max_resync_attempts < ra)
    (h3 : read_one_frame src cfg (begin_attempt cfg ticks st) = (.error err, st2))
    (h4 : isSpiErr err = false)
    (h5 : ¬ (st2.sync_state = SyncState.Locked ∧ isImmediateErr err = true))
    (h6 : backoff_reads src cfg.backoff_packet_reads (resync_bump st2) = (.error e2, st4)) :
    capture_loop src cfg ticks fa ra le st = (.error (.Spi e2), st4) := by
  unfold capture_loop
  rw [if_neg h1, if_neg h2]
  dsimp only []
  rw [h3]
  dsimp only []
  rw [if_neg (by simp [h4]), if_neg h5, h6]
/-- `read_one_frame` relative to the state before `begin_attempt`: the
latch is untouched, exactly one tick is sampled, diagnostics grow, at most
`timeout_packets + 1` packets are read, errors are classified, and the
frame buffer is only written inside its required region. -/
theorem attempt_spec {ε : Type} (src : Nat → Except ε (List Nat))
    (cfg : RobustCaptureConfig) (ticks : Nat → Nat) (st : CaptureState) :
    (read_one_frame src cfg (begin_attempt cfg ticks st)).2.first_valid_synced =
      st.first_valid_synced ∧
    (read_one_frame src cfg (begin_attempt cfg ticks st)).2.tickIdx = st.tickIdx + 1 ∧
    diagMono st.diagnostics
      (read_one_frame src cfg (begin_attempt cfg ticks st)).2.diagnostics ∧
    st.readIdx ≤ (read_one_frame src cfg (begin_attempt cfg ticks st)).2.readIdx ∧
    (read_one_frame src cfg (begin_attempt cfg ticks st)).2.readIdx ≤
      st.readIdx + (cfg.timeout_packets + 1) ∧
    (∀ e, (read_one_frame src cfg (begin_attempt cfg ticks st)).1 = .error e →
      e ≠ .RetryLimitExceeded ∧
      (st.first_valid_synced = false → isImmediateErr e = false)) ∧
    (1 ≤ cfg.lines_per_segment ∧ required_frame_buffer_len cfg ≤ st.frame.length →
      (read_one_frame src cfg (begin_attempt cfg ticks st)).2.frame.length =
        st.frame.length ∧
      (read_one_frame src cfg (begin_attempt cfg ticks st)).2.frame.drop
          (required_frame_buffer_len cfg) =
        st.frame.drop (required_frame_buffer_len cfg)) := by
  have hspec := read_one_frame_spec src cfg (begin_attempt cfg ticks st)
  obtain ⟨hms, hdm, hrub, hrlb, hcls, _, hframe⟩ := hspec
  refine ⟨?_, ?_, ?_, ?_, ?_, ?_, ?_⟩
  · simpa [begin_attempt] using hms.1
  · simpa [begin_attempt] using hms.2.1
  · simpa [begin_attempt] using hdm
  · simpa [begin_attempt] using hrlb
  · simpa [begin_attempt] using hrub
  · intro e he
    have hc := hcls e he
    refine ⟨hc.2.1, ?_⟩
    intro hlf
    apply hc.2.2.2
    simp [begin_attempt, hlf]
  · intro hcond
    have hf := hframe (by simpa [begin_attempt] using hcond)
    constructor
    · simpa [begin_attempt] using hf.1
    · simpa [begin_attempt] using hf.2

theorem resync_bump_diag (st : CaptureState) :
    diagMono st.diagnostics (resync_bump st).diagnostics := by
  unfold resync_bump diagMono
  simp

/-- Master contract of the retry loop: the latch is set exactly on
success, diagnostics are monotone, one tick is sampled per attempt (at
most `max_frame_retries + 1 - frame_attempts` further attempts), the
number of packet reads is bounded, `RetryLimitExceeded` is never returned
(when no such last error is carried in), failures of a Seeking call are
never the three Locked-only errors, and the frame buffer is written only
inside its required region. -/
theorem capture_loop_spec {ε : Type} (src : Nat → Except ε (List Nat))
    (cfg : RobustCaptureConfig) (ticks : Nat → Nat) :
    ∀ (fa ra : Nat) (le : Option (CaptureError ε)) (st : CaptureState),
      fa ≤ cfg.max_frame_retries →
      (∀ e0, le = some e0 → e0 ≠ .RetryLimitExceeded) →
      (capture_loop src cfg ticks fa ra le st).2.first_valid_synced =
        (st.first_valid_synced || captureOk (capture_loop src cfg ticks fa ra le st).1) ∧
      diagMono st.diagnostics (capture_loop src cfg ticks fa ra le st).2.diagnostics ∧
      st.tickIdx ≤ (capture_loop src cfg ticks fa ra le st).2.tickIdx ∧
      (capture_loop src cfg ticks fa ra le st).2.tickIdx ≤
        st.tickIdx + (cfg.max_frame_retries + 1 - fa) ∧
      (capture_loop src cfg ticks fa ra le st).2.readIdx ≤
        st.readIdx + (cfg.max_frame_retries + 1 - fa) *
          (cfg.timeout_packets + 1 + cfg.backoff_packet_reads) ∧
      (∀ e, (capture_loop src cfg ticks fa ra le st).1 = .error e →
        e ≠ .RetryLimitExceeded ∧
        (st.first_valid_synced = false → isImmediateErr e = false)) ∧
      (1 ≤ cfg.lines_per_segment ∧ required_frame_buffer_len cfg ≤ st.frame.length →
        (capture_loop src cfg ticks fa ra le st).2.frame.length = st.frame.length ∧
        (capture_loop src cfg ticks fa ra le st).2.frame.drop
            (required_frame_buffer_len cfg) =
          st.frame.drop (required_frame_buffer_len cfg)) := by
  have main : ∀ (n fa ra : Nat) (le : Option (CaptureError ε)) (st : CaptureState),
      cfg.max_frame_retries + 1 - fa ≤ n → fa ≤ cfg.max_frame_retries →
      (∀ e0, le = some e0 → e0 ≠ .RetryLimitExceeded) →
      (capture_loop src cfg ticks fa ra le st).2.first_valid_synced =
        (st.first_valid_synced || captureOk (capture_loop src cfg ticks fa ra le st).1) ∧
      diagMono st.diagnostics (capture_loop src cfg ticks fa ra le st).2.diagnostics ∧
      st.tickIdx ≤ (capture_loop src cfg ticks fa ra le st).2.tickIdx ∧
      (capture_loop src cfg ticks fa ra le st).2.tickIdx ≤
        st.tickIdx + (cfg.max_frame_retries + 1 - fa) ∧
      (capture_loop src cfg ticks fa ra le st).2.readIdx ≤
        st.readIdx + (cfg.max_frame_retries + 1 - fa) *
          (cfg.timeout_packets + 1 + cfg.backoff_packet_reads) ∧
      (∀ e, (capture_loop src cfg ticks fa ra le st).1 = .error e →
        e ≠ .RetryLimitExceeded ∧
        (st.first_valid_synced = false → isImmediateErr e = false)) ∧
      (1 ≤ cfg.lines_per_segment ∧ required_frame_buffer_len cfg ≤ st.frame.length →
        (capture_loop src cfg ticks fa ra le st).2.frame.length = st.frame.length ∧
        (capture_loop src cfg ticks fa ra le st).2.frame.drop
            (required_frame_buffer_len cfg) =
          st.frame.drop (required_frame_buffer_len cfg)) := by
    intro n
    induction n using Nat.strong_induction_on with
    | _ n ih =>
      intro fa ra le st hn hfa hle
      have hfa1 : ¬ cfg.max_frame_retries < fa := by omega
      have hmul : cfg.timeout_packets + 1 + cfg.backoff_packet_reads ≤
          (cfg.max_frame_retries + 1 - fa) *
            (cfg.timeout_packets + 1 + cfg.backoff_packet_reads) :=
        Nat.le_mul_of_pos_left _ (by omega)
      by_cases hra : cfg.max_resync_attempts < ra
      · rw [capture_loop_synclost hfa1 hra]
        refine ⟨by simp [captureOk], diagMono_refl _, le_refl _,
          (by omega : st.tickIdx ≤ st.tickIdx + (cfg.max_frame_retries + 1 - fa)),
          (by omega : st.readIdx ≤ st.readIdx + (cfg.max_frame_retries + 1 - fa) *
            (cfg.timeout_packets + 1 + cfg.backoff_packet_reads)), ?_, fun _ => ⟨rfl, rfl⟩⟩
        intro e he
        cases he
        exact ⟨by simp, fun _ => by simp [isImmediateErr]⟩
      · have ha := attempt_spec src cfg ticks st
        rcases hr1 : read_one_frame src cfg (begin_attempt cfg ticks st) with ⟨res1, st2⟩
        rw [hr1] at ha
        dsimp only [] at ha
        obtain ⟨ha1, ha2, ha3, ha4, ha5, ha6, ha7⟩ := ha
        rcases res1 with e | u
        · by_cases hspi : isSpiErr e = true
          · rw [capture_loop_spi hfa1 hra hr1 hspi]
            refine ⟨by simp [captureOk, ha1], ha3,
              (show st.tickIdx ≤ st2.tickIdx by omega),
              (show st2.tickIdx ≤ st.tickIdx + (cfg.max_frame_retries + 1 - fa) by omega),
              (show st2.readIdx ≤ st.readIdx + (cfg.max_frame_retries + 1 - fa) *
                (cfg.timeout_packets + 1 + cfg.backoff_packet_reads) by omega), ?_, ha7⟩
            intro e2 he
            cases he
            exact ha6 e rfl
          · have hspi2 : isSpiErr e = false := by simpa using hspi
            by_cases himm : st2.sync_state = SyncState.Locked ∧ isImmediateErr e = true
            · rw [capture_loop_immediate hfa1 hra hr1 hspi2 himm]
              refine ⟨?_, diagMono_trans ha3 (resync_bump_diag st2),
                (show st.tickIdx ≤ st2.tickIdx by omega),
                (show st2.tickIdx ≤ st.tickIdx + (cfg.max_frame_retries + 1 - fa) by omega),
                (show st2.readIdx ≤ st.readIdx + (cfg.max_frame_retries + 1 - fa) *
                  (cfg.timeout_packets + 1 + cfg.backoff_packet_reads) by omega), ?_, ?_⟩
              · simp only [captureOk, Bool.or_false]
                show st2.first_valid_synced = _
                rw [ha1]
              · intro e2 he
                cases he
                exact ha6 e rfl
              · intro hcond
                have hf := ha7 hcond
                exact ⟨hf.1, hf.2⟩
            · have hbs := backoff_reads_spec src cfg.backoff_packet_reads (resync_bump st2)
              rcases hbo : backoff_reads src cfg.backoff_packet_reads (resync_bump st2)
                with ⟨bres, st4⟩
              rw [hbo] at hbs
              dsimp only [] at hbs
              have h4latch : st4.first_valid_synced = st2.first_valid_synced := by
                rw [hbs.1]; rfl
              have h4diag : st4.diagnostics = (resync_bump st2).diagnostics := by
                rw [hbs.1]
              have h4tick : st4.tickIdx = st2.tickIdx := by rw [hbs.1]; rfl
              have h4frame : st4.frame = st2.frame := by rw [hbs.1]; rfl
              have h4idx1 : st2.readIdx ≤ st4.readIdx := hbs.2.1
              have h4idx2 : st4.readIdx ≤ st2.readIdx + cfg.backoff_packet_reads := hbs.2.2
              rcases bres with e2 | u2
              · rw [capture_loop_backoff_spi hfa1 hra hr1 hspi2 himm hbo]
                dsimp only []
                refine ⟨by simp [captureOk]; rw [h4latch, ha1],
                  diagMono_trans (diagMono_trans ha3 (resync_bump_diag st2))
                    (by rw [h4diag]; exact diagMono_refl _),
                  by omega, by omega, by omega, ?_, ?_⟩
                · intro e3 he
                  cases he
                  exact ⟨by simp, fun _ => by simp [isImmediateErr]⟩
                · intro hcond
                  have hf := ha7 hcond
                  rw [h4frame]
                  exact ⟨hf.1, hf.2⟩
              · rw [capture_loop_resync hfa1 hra hr1 hspi2 himm hbo]
                by_cases hra2 : cfg.max_resync_attempts < ra + 1
                · rw [if_pos hra2]
                  dsimp only []
                  refine ⟨by simp [captureOk]; rw [h4latch, ha1],
                    diagMono_trans (diagMono_trans ha3 (resync_bump_diag st2))
                      (by rw [h4diag]; exact diagMono_refl _),
                    by omega, by omega, by omega, ?_, ?_⟩
                  · intro e3 he
                    cases he
                    exact ⟨by simp, fun _ => by simp [isImmediateErr]⟩
                  · intro hcond
                    have hf := ha7 hcond
                    rw [h4frame]
                    exact ⟨hf.1, hf.2⟩
                · rw [if_neg hra2]
                  by_cases hfa2 : cfg.max_frame_retries < fa + 1
                  · rw [if_pos hfa2]
                    dsimp only []
                    refine ⟨by simp [captureOk]; rw [h4latch, ha1],
                      diagMono_trans (diagMono_trans ha3 (resync_bump_diag st2))
                        (by rw [h4diag]; exact diagMono_refl _),
                      by omega, by omega, by omega, ?_, ?_⟩
                    · intro e3 he
                      cases he
                      exact ha6 e rfl
                    · intro hcond
                      have hf := ha7 hcond
                      rw [h4frame]
                      exact ⟨hf.1, hf.2⟩
                  · rw [if_neg hfa2]
                    have hrec := ih (cfg.max_frame_retries + 1 - (fa + 1)) (by omega)
                      (fa + 1) (ra + 1) (some e) st4 (le_refl _) (by omega)
                      (by intro e0 h0; cases h0; exact (ha6 e rfl).1)
                    obtain ⟨hr1c, hr2c, hr3c, hr4c, hr5c, hr6c, hr7c⟩ := hrec
                    have harith : (cfg.max_frame_retries + 1 - fa) *
                        (cfg.timeout_packets + 1 + cfg.backoff_packet_reads) =
                        (cfg.max_frame_retries + 1 - (fa + 1)) *
                          (cfg.timeout_packets + 1 + cfg.backoff_packet_reads) +
                        (cfg.timeout_packets + 1 + cfg.backoff_packet_reads) := by
                      have h0 : cfg.max_frame_retries + 1 - fa =
                          (cfg.max_frame_retries + 1 - (fa + 1)) + 1 := by omega
                      rw [h0]
                      ring
                    refine ⟨by rw [hr1c, h4latch, ha1], ?_, by omega, by omega, by omega,
                      ?_, ?_⟩
                    · exact diagMono_trans (diagMono_trans (diagMono_trans ha3
                        (resync_bump_diag st2)) (by rw [h4diag]; exact diagMono_refl _)) hr2c
                    · intro e3 he
                      have hc := hr6c e3 he
                      refine ⟨hc.1, ?_⟩
                      intro hlf
                      exact hc.2 (by rw [h4latch, ha1, hlf])
                    · intro hcond
                      have hf := ha7 hcond
                      have hcond4 : 1 ≤ cfg.lines_per_segment ∧
                          required_frame_buffer_len cfg ≤ st4.frame.length := by
                        rw [h4frame, hf.1]
                        exact hcond
                      have hf4 := hr7c hcond4
                      refine ⟨by rw [hf4.1, h4frame, hf.1], ?_⟩
                      rw [hf4.2, h4frame, hf.2]
        · rcases u
          rw [capture_loop_success hfa1 hra hr1]
          refine ⟨by simp [captureOk], ha3,
            (show st.tickIdx ≤ st2.tickIdx by omega),
            (show st2.tickIdx ≤ st.tickIdx + (cfg.max_frame_retries + 1 - fa) by omega),
            (show st2.readIdx ≤ st.readIdx + (cfg.max_frame_retries + 1 - fa) *
              (cfg.timeout_packets + 1 + cfg.backoff_packet_reads) by omega), ?_, ?_⟩
          · intro e he
            simp at he
          · intro hcond
            have hf := ha7 hcond
            exact ⟨hf.1, hf.2⟩
  intro fa ra le st hfa hle
  exact main (cfg.max_frame_retries + 1 - fa) fa ra le st (le_refl _) hfa hle

/-! ### Fuel-indexed executable twins of the loops

`read_frame_loop` and `capture_loop` are defined by well-founded
recursion, which the kernel cannot evaluate directly. The following
structurally recursive twins compute the same results given enough fuel
(the loops' own budgets bound the fuel needed), which lets concrete runs
be settled by evaluation. -/

def read_frame_loopF {ε : Type} (src : Nat → Except ε (List Nat))
    (cfg : RobustCaptureConfig) (locked : Bool) :
    Nat → CaptureState → Option (Except (CaptureError ε) Unit × CaptureState)
  | 0, _ => none
  | fuel + 1, st =>
    if cfg.segments_per_frame < st.expected_segment then some (.ok (), st)
    else
      match read_packet_step src cfg locked st with
      | .fatal e st2 => some (.error e, st2)
      | .next st2 => read_frame_loopF src cfg locked fuel st2

theorem read_frame_loopF_eq {ε : Type} (src : Nat → Except ε (List Nat))
    (cfg : RobustCaptureConfig) (locked : Bool) :
    ∀ (fuel : Nat) (st : CaptureState),
      cfg.timeout_packets + 2 - st.packets_seen ≤ fuel →
      st.packets_seen ≤ cfg.timeout_packets + 1 →
      read_frame_loopF src cfg locked fuel st =
        some (read_frame_loop src cfg locked st) := by
  intro fuel
  induction fuel with
  | zero =>
    intro st h1 h2
    omega
  | succ m ih =>
    intro st h1 h2
    unfold read_frame_loopF
    by_cases hexit : cfg.segments_per_frame < st.expected_segment
    · rw [if_pos hexit, read_frame_loop_exit hexit]
    · rw [if_neg hexit]
      rcases hstep : read_packet_step src cfg locked st with ⟨e, st2⟩ | st2
      · rw [read_frame_loop_fatal hexit hstep]
      · rw [read_frame_loop_next hexit hstep]
        have hs := read_packet_step_next hstep
        exact ih st2 (by omega) (by omega)

def read_one_frameF {ε : Type} (src : Nat → Except ε (List Nat))
    (cfg : RobustCaptureConfig) (st : CaptureState) :
    Option (Except (CaptureError ε) Unit × CaptureState) :=
  if cfg.packet_size_bytes < 4 then some (.error .InvalidPacket, st)
  else
    match read_frame_loopF src cfg (decide (st.sync_state = SyncState.Locked))
        (cfg.timeout_packets + 2)
        { st with expected_segment := 1, expected_packet_number := 0, packets_seen := 0 } with
    | some (.ok _, st2) => some (.ok (), { st2 with sync_state := SyncState.Locked })
    | some (.error e, st2) => some (.error e, st2)
    | none => none

theorem read_one_frameF_eq {ε : Type} (src : Nat → Except ε (List Nat))
    (cfg : RobustCaptureConfig) (st : CaptureState) :
    read_one_frameF src cfg st = some (read_one_frame src cfg st) := by
  unfold read_one_frameF read_one_frame
  by_cases hps : cfg.packet_size_bytes < 4
  · rw [if_pos hps, if_pos hps]
  · rw [if_neg hps, if_neg hps]
    dsimp only []
    rw [read_frame_loopF_eq src cfg _ (cfg.timeout_packets + 2)
      { st with expected_segment := 1, expected_packet_number := 0, packets_seen := 0 }
      (by simp) (by simp)]
    rcases read_frame_loop src cfg (decide (st.sync_state = SyncState.Locked))
        { st with expected_segment := 1, expected_packet_number := 0, packets_seen := 0 }
      with ⟨res, st2⟩
    rcases res with e | u
    · rfl
    · rfl

def capture_loopF {ε : Type} (src : Nat → Except ε (List Nat))
    (cfg : RobustCaptureConfig) (ticks : Nat → Nat) :
    Nat → Nat → Nat → Option (CaptureError ε) → CaptureState →
    Option (Except (CaptureError ε) FrameMeta × CaptureState)
  | 0, _, _, _, _ => none
  | afuel + 1, frame_attempts, resync_attempts, last_error, st =>
    if cfg.max_frame_retries < frame_attempts then
      some (.error (last_error.getD .RetryLimitExceeded), st)
    else if cfg.max_resync_attempts < resync_attempts then
      some (.error .SyncLost, { st with sync_state := SyncState.Unsynced })
    else
      match read_one_frameF src cfg (begin_attempt cfg ticks st) with
      | none => none
      | some (.ok _, st2) =>
        some (.ok { st2.meta with valid := true },
          { st2 with first_valid_synced := true, meta := { st2.meta with valid := true } })
      | some (.error err, st2) =>
        if isSpiErr err then some (.error err, st2)
        else if st2.sync_state = SyncState.Locked ∧ isImmediateErr err = true then
          some (.error err, resync_bump st2)
        else
          match backoff_reads src cfg.backoff_packet_reads (resync_bump st2) with
          | (.error e, st4) => some (.error (.Spi e), st4)
          | (.ok _, st4) =>
            if cfg.max_resync_attempts < resync_attempts + 1 then
              some (.error .SyncLost, st4)
            else if cfg.max_frame_retries < frame_attempts + 1 then
              some (.error err, st4)
            else
              capture_loopF src cfg ticks afuel (frame_attempts + 1) (resync_attempts + 1)
                (some err) st4

theorem capture_loopF_eq {ε : Type} (src : Nat → Except ε (List Nat))
    (cfg : RobustCaptureConfig) (ticks : Nat → Nat) :
    ∀ (afuel fa ra : Nat) (le : Option (CaptureError ε)) (st : CaptureState),
      cfg.max_frame_retries + 2 - fa ≤ afuel →
      fa ≤ cfg.max_frame_retries + 1 →
      capture_loopF src cfg ticks afuel fa ra le st =
        some (capture_loop src cfg ticks fa ra le st) := by
  intro afuel
  induction afuel with
  | zero =>
    intro fa ra le st h1 h2
    omega
  | succ m ih =>
    intro fa ra le st h1 h2
    unfold capture_loopF
    by_cases hfa : cfg.max_frame_retries < fa
    · rw [if_pos hfa, capture_loop_retry_exit hfa]
    · rw [if_neg hfa]
      by_cases hra : cfg.max_resync_attempts < ra
      · rw [if_pos hra, capture_loop_synclost hfa hra]
      · rw [if_neg hra]
        rw [read_one_frameF_eq src cfg (begin_attempt cfg ticks st)]
        rcases hr1 : read_one_frame src cfg (begin_attempt cfg ticks st) with ⟨res1, st2⟩
        rcases res1 with e | u
        · dsimp only []
          by_cases hspi : isSpiErr e = true
          · rw [if_pos hspi, capture_loop_spi hfa hra hr1 hspi]
          · have hspi2 : isSpiErr e = false := by simpa using hspi
            rw [if_neg hspi]
            by_cases himm : st2.sync_state = SyncState.Locked ∧ isImmediateErr e = true
            · rw [if_pos himm, capture_loop_immediate hfa hra hr1 hspi2 himm]
            · rw [if_neg himm]
              rcases hbo : backoff_reads src cfg.backoff_packet_reads (resync_bump st2)
                with ⟨bres, st4⟩
              rcases bres with e2 | u2
              · rw [capture_loop_backoff_spi hfa hra hr1 hspi2 himm hbo]
              · rw [capture_loop_resync hfa hra hr1 hspi2 himm hbo]
                dsimp only []
                by_cases hra2 : cfg.max_resync_attempts < ra + 1
                · rw [if_pos hra2, if_pos hra2]
                · rw [if_neg hra2, if_neg hra2]
                  by_cases hfa2 : cfg.max_frame_retries < fa + 1
                  · rw [if_pos hfa2, if_pos hfa2]
                  · rw [if_neg hfa2, if_neg hfa2]
                    exact ih (fa + 1) (ra + 1) (some e) st4 (by omega) (by omega)
        · rcases u
          rw [capture_loop_success hfa hra hr1]

def capture_frame_intoF {ε : Type} (src : Nat → Except ε (List Nat))
    (cfg : RobustCaptureConfig) (ticks : Nat → Nat) (packet_buf_len : Nat)
    (st : CaptureState) :
    Option (Except (CaptureError ε) FrameMeta × CaptureState) :=
  if cfg.packet_size_bytes < 4 then some (.error .InvalidPacket, st)
  else if packet_buf_len < cfg.packet_size_bytes ∨
      st.frame.length < required_frame_buffer_len cfg then
    some (.error .InvalidPacket, st)
  else capture_loopF src cfg ticks (cfg.max_frame_retries + 2) 0 0 none st

theorem capture_frame_intoF_eq {ε : Type} (src : Nat → Except ε (List Nat))
    (cfg : RobustCaptureConfig) (ticks : Nat → Nat) (packet_buf_len : Nat)
    (st : CaptureState) :
    capture_frame_intoF src cfg ticks packet_buf_len st =
      some (capture_frame_into src cfg ticks packet_buf_len st) := by
  unfold capture_frame_intoF capture_frame_into
  by_cases hps : cfg.packet_size_bytes < 4
  · rw [if_pos hps, if_pos hps]
  · rw [if_neg hps, if_neg hps]
    by_cases hbuf : packet_buf_len < cfg.packet_size_bytes ∨
        st.frame.length < required_frame_buffer_len cfg
    · rw [if_pos hbuf, if_pos hbuf]
    · rw [if_neg hbuf, if_neg hbuf]
      exact capture_loopF_eq src cfg ticks _ 0 0 none st (by omega) (by omega)

/-- Evaluation principle: a run of the fuel twin settles the value of
`capture_frame_into`. -/
theorem capture_frame_into_eval {ε : Type} {src : Nat → Except ε (List Nat)}
    {cfg : RobustCaptureConfig} {ticks : Nat → Nat} {packet_buf_len : Nat}
    {st : CaptureState} {r : Except (CaptureError ε) FrameMeta × CaptureState}
    (h : capture_frame_intoF src cfg ticks packet_buf_len st = some r) :
    capture_frame_into src cfg ticks packet_buf_len st = r :=
  Option.some.inj
    ((capture_frame_intoF_eq src cfg ticks packet_buf_len st).symm.trans h)

/-- Projection-level evaluation principle, for runs whose full final state
is too large to write out: any function of the run's result can be
computed on the fuel twin. -/
theorem capture_frame_into_eval_map {ε α : Type}
    {src : Nat → Except ε (List Nat)} {cfg : RobustCaptureConfig} {ticks : Nat → Nat}
    {packet_buf_len : Nat} {st : CaptureState}
    (f : Except (CaptureError ε) FrameMeta × CaptureState → α) {v : α}
    (h : Option.map f (capture_frame_intoF src cfg ticks packet_buf_len st) = some v) :
    f (capture_frame_into src cfg ticks packet_buf_len st) = v := by
  rw [capture_frame_intoF_eq src cfg ticks packet_buf_len st] at h
  simpa using h

/-! ### The canonical happy-path run -/

theorem canonPayload_length (k : Nat) : (canonPayload k).length = 160 := by
  unfold canonPayload
  simp

theorem canonJoin_length : ∀ k, (((List.range k).map canonPayload).flatten).length = k * 160 := by
  intro k
  induction k with
  | zero => simp
  | succ m ih =>
    rw [List.range_succ]
    simp only [List.map_append, List.map_cons, List.map_nil, List.flatten_append,
      List.flatten_cons, List.flatten_nil, List.length_append, ih]
    simp [canonPayload_length]
    omega

theorem canonFrameAt_length (k : Nat) (hk : k ≤ 240) : (canonFrameAt k).length = 38400 := by
  unfold canonFrameAt
  rw [List.length_append, canonJoin_length, List.length_replicate]
  omega

theorem canonFrameAt_zero : canonFrameAt 0 = List.replicate 38400 0 := by
  unfold canonFrameAt
  rw [List.range_zero, List.map_nil, List.flatten_nil, List.nil_append]

theorem canonFrameAt_full : canonFrameAt 240 = canonPixels := by
  unfold canonFrameAt canonPixels
  rw [Nat.sub_self, Nat.zero_mul, List.replicate_zero, List.append_nil]

/-- Writing payload `k` into slot `k` of the partially filled frame yields
the frame with `k + 1` payloads filled. -/
theorem canonFrame_step (k : Nat) (hk : k < 240) :
    write_bytes (canonFrameAt k) (k * 160) (canonPayload k) = canonFrameAt (k + 1) := by
  unfold write_bytes canonFrameAt
  have hJ : (((List.range k).map canonPayload).flatten).length = k * 160 := canonJoin_length k
  rw [canonPayload_length]
  have htake : List.take (k * 160) (((List.range k).map canonPayload).flatten ++
      List.replicate ((240 - k) * 160) 0) = ((List.range k).map canonPayload).flatten := by
    rw [← hJ]
    simp
  have hdrop : List.drop (k * 160 + 160) (((List.range k).map canonPayload).flatten ++
      List.replicate ((240 - k) * 160) 0) = List.replicate ((240 - (k + 1)) * 160) 0 := by
    rw [List.drop_append_eq_append_drop, List.drop_eq_nil_of_le (by omega), hJ,
      List.nil_append, List.drop_replicate]
    congr 1
    omega
  rw [htake, hdrop]
  rw [List.range_succ]
  simp only [List.map_append, List.map_cons, List.map_nil, List.flatten_append,
    List.flatten_cons, List.flatten_nil, List.append_nil]
  try rw [List.append_assoc]

/-- The assembler state after `k` accepted packets of the canonical
stream, relative to a base state `b` (the state at loop entry). -/
def canonSt (b : CaptureState) (k : Nat) : CaptureState :=
  { b with expected_segment := k / 60 + 1, expected_packet_number := k % 60,
           packets_seen := k, readIdx := k, frame := canonFrameAt k }

theorem canonPacket_parse (k : Nat) (hk : k < 240) :
    parse_packet_header (canonPacket k) =
      some { packet_id := packetId (k % 60) (k / 60 + 1)
             packet_number := k % 60
             crc := crc16_fold 0 0 (canonPacket k)
             is_discard := false } := by
  unfold canonPacket
  exact parse_mk_packet (k % 60) (k / 60 + 1) ((k / 60 + 1) * 9) (by omega) (by omega)

theorem canonPacket_crc (k : Nat) (hk : k < 240) :
    validate_packet_crc (canonPacket k) = true := by
  unfold canonPacket
  exact validate_mk_packet (k % 60) (k / 60 + 1) ((k / 60 + 1) * 9) (by omega) (by omega)

/-- `handle_header` on an in-order, CRC-valid, non-discard packet falls
through to the payload copy. -/
theorem handle_header_accept {ε : Type} (cfg : RobustCaptureConfig) (locked : Bool)
    (buf : List Nat) (hd : PacketHeader) (st : CaptureState)
    (hdisc : hd.is_discard = false)
    (hcrc : ¬ (cfg.enable_crc = true ∧ validate_packet_crc buf = false))
    (hskip : ¬ (locked = false ∧ st.expected_segment = 1 ∧
      st.expected_packet_number = 0 ∧ hd.packet_number ≠ 0))
    (hpn : hd.packet_number = st.expected_packet_number)
    (h20 : hd.packet_number = 20 →
      hd.decode_segment_on_packet20 = some st.expected_segment ∧
      st.expected_segment ≠ 0 ∧ ¬ cfg.segments_per_frame < st.expected_segment) :
    handle_header (ε := ε) cfg locked buf hd st = .next (accept_packet cfg st buf) := by
  unfold handle_header
  rw [if_neg (show ¬ hd.is_discard = true by simp [hdisc])]
  rw [if_neg hcrc]
  dsimp only []
  rw [if_neg hskip]
  rw [if_neg (show ¬ hd.packet_number ≠ st.expected_packet_number by simp [hpn])]
  by_cases h2 : hd.packet_number = 20
  · rw [if_pos h2]
    obtain ⟨hdec, hne0, hles⟩ := h20 h2
    rw [hdec]
    dsimp only []
    rw [if_neg (show ¬ (st.expected_segment = 0 ∨
      cfg.segments_per_frame < st.expected_segment) by push_neg; exact ⟨hne0, by omega⟩)]
    rw [if_neg (show ¬ st.expected_segment ≠ st.expected_segment by simp)]
  · rw [if_neg h2]

/-- `read_packet_step` on an in-order, CRC-valid, non-discard packet
accepts it. -/
theorem read_packet_step_accept {ε : Type} {src : Nat → Except ε (List Nat)}
    {cfg : RobustCaptureConfig} {locked : Bool} {st : CaptureState}
    {pkt : List Nat} {hd : PacketHeader}
    (hsrc : src st.readIdx = .ok pkt)
    (hlen : pkt.length = cfg.packet_size_bytes)
    (hseen : st.packets_seen + 1 ≤ cfg.timeout_packets)
    (hparse : parse_packet_header pkt = some hd)
    (hdisc : hd.is_discard = false)
    (hcrc : ¬ (cfg.enable_crc = true ∧ validate_packet_crc pkt = false))
    (hskip : ¬ (locked = false ∧ st.expected_segment = 1 ∧
      st.expected_packet_number = 0 ∧ hd.packet_number ≠ 0))
    (hpn : hd.packet_number = st.expected_packet_number)
    (h20 : hd.packet_number = 20 →
      hd.decode_segment_on_packet20 = some st.expected_segment ∧
      st.expected_segment ≠ 0 ∧ ¬ cfg.segments_per_frame < st.expected_segment) :
    read_packet_step src cfg locked st =
      .next (accept_packet cfg
        { st with readIdx := st.readIdx + 1, packets_seen := st.packets_seen + 1 } pkt) := by
  unfold read_packet_step
  rw [hsrc]
  dsimp only []
  rw [buffer_fill_of_length hlen]
  rw [if_neg (show ¬ cfg.timeout_packets <
    ({ st with readIdx := st.readIdx + 1, packets_seen := st.packets_seen + 1 } :
      CaptureState).packets_seen by dsimp only []; omega)]
  rw [hparse]
  exact handle_header_accept cfg locked pkt hd _ hdisc hcrc hskip hpn h20

/-- The full frame state after accepting canonical packet `k`. -/
theorem canon_accept {cfg : RobustCaptureConfig} (b : CaptureState) (k : Nat)
    (hps : cfg.packet_size_bytes = 164) (hlines : cfg.lines_per_segment = 60)
    (hk : k < 240) :
    accept_packet cfg
      { canonSt b k with readIdx := k + 1, packets_seen := k + 1 } (canonPacket k) =
      canonSt b (k + 1) := by
  unfold accept_packet canonSt
  dsimp only []
  rw [hps, hlines]
  unfold canonPacket
  rw [mk_packet_payload]
  have hfl : ((k / 60 + 1 - 1) * 60 + k % 60) * (164 - 4) = k * 160 := by
    omega
  rw [hfl]
  rw [show ((List.range 160).map fun i => ((k / 60 + 1) * 9 + i) % 256) =
    canonPayload k from rfl]
  rw [canonFrame_step k hk]
  by_cases h59 : k % 60 = 59
  · rw [if_pos (by omega)]
    simp only [CaptureState.mk.injEq]
    simp only [and_true, true_and, eq_self_iff_true]
    omega
  · rw [if_neg (by omega)]
    simp only [CaptureState.mk.injEq]
    simp only [and_true, true_and, eq_self_iff_true]
    omega

/-- One accepted step of the canonical stream: from state `k` with packet
`k` delivered, the loop advances to state `k + 1`. -/
theorem canon_step {ε : Type} {src : Nat → Except ε (List Nat)}
    {cfg : RobustCaptureConfig} {locked : Bool} (b : CaptureState) (k : Nat)
    (hps : cfg.packet_size_bytes = 164) (hlines : cfg.lines_per_segment = 60)
    (hsegs : cfg.segments_per_frame = 4) (htime : 240 ≤ cfg.timeout_packets)
    (hk : k < 240) (hsrc : src k = .ok (canonPacket k)) :
    read_packet_step src cfg locked (canonSt b k) = .next (canonSt b (k + 1)) := by
  have hseg4 : k / 60 + 1 ≤ 4 := by omega
  have hstep := @read_packet_step_accept ε src cfg locked
    (canonSt b k) (canonPacket k)
    { packet_id := packetId (k % 60) (k / 60 + 1)
      packet_number := k % 60
      crc := crc16_fold 0 0 (canonPacket k)
      is_discard := false }
    (by show src (canonSt b k).readIdx = _; exact hsrc)
    (by rw [hps]; exact mk_packet_length _ _ _)
    (by show (canonSt b k).packets_seen + 1 ≤ _; dsimp only [canonSt]; omega)
    (canonPacket_parse k hk)
    rfl
    (by rw [canonPacket_crc k hk]; simp)
    (by
      rintro ⟨hl, hseg1, hepn0, hpn0⟩
      dsimp only [canonSt] at hseg1 hepn0
      dsimp only [] at hpn0
      omega)
    (by show k % 60 = (canonSt b k).expected_packet_number; rfl)
    (by
      intro h2
      dsimp only [] at h2
      refine ⟨?_, by dsimp only [canonSt]; omega,
        by dsimp only [canonSt]; rw [hsegs]; omega⟩
      unfold PacketHeader.decode_segment_on_packet20
      rw [if_neg (by simpa using h2)]
      dsimp only [canonSt]
      congr 1
      unfold packetId
      rw [if_pos h2]
      omega)
  rw [hstep]
  congr 1
  exact canon_accept b k hps hlines hk

/-- Chaining accepted steps: a run over canonical packets `k ..< k + n`. -/
theorem canon_chain {ε : Type} {src : Nat → Except ε (List Nat)}
    {cfg : RobustCaptureConfig} {locked : Bool} (b : CaptureState)
    (hps : cfg.packet_size_bytes = 164) (hlines : cfg.lines_per_segment = 60)
    (hsegs : cfg.segments_per_frame = 4) (htime : 240 ≤ cfg.timeout_packets) :
    ∀ (n k : Nat), k + n ≤ 240 →
      (∀ j, k ≤ j → j < k + n → src j = .ok (canonPacket j)) →
      read_frame_loop src cfg locked (canonSt b k) =
        read_frame_loop src cfg locked (canonSt b (k + n)) := by
  intro n
  induction n with
  | zero => intro k _ _; rfl
  | succ m ih =>
    intro k hkn hsrc
    have hstep := @canon_step ε src cfg locked b k hps hlines hsegs htime
      (by omega) (hsrc k (le_refl _) (by omega))
    rw [read_frame_loop_next (by show ¬ cfg.segments_per_frame <
      (canonSt b k).expected_segment; dsimp only [canonSt]; rw [hsegs]; omega) hstep]
    have hrest := ih (k + 1) (by omega) (by intro j h1 h2; exact hsrc j (by omega) (by omega))
    rw [hrest]
    congr 2
    omega

/-- `capture_loop_spec` lifted through the precondition checks of
`capture_frame_into`. -/
theorem capture_frame_into_spec {ε : Type} (src : Nat → Except ε (List Nat))
    (cfg : RobustCaptureConfig) (ticks : Nat → Nat) (packet_buf_len : Nat)
    (st : CaptureState) :
    (capture_frame_into src cfg ticks packet_buf_len st).2.first_valid_synced =
      (st.first_valid_synced ||
        captureOk (capture_frame_into src cfg ticks packet_buf_len st).1) ∧
    diagMono st.diagnostics
      (capture_frame_into src cfg ticks packet_buf_len st).2.diagnostics ∧
    st.tickIdx ≤ (capture_frame_into src cfg ticks packet_buf_len st).2.tickIdx ∧
    (capture_frame_into src cfg ticks packet_buf_len st).2.tickIdx ≤
      st.tickIdx + (cfg.max_frame_retries + 1) ∧
    (capture_frame_into src cfg ticks packet_buf_len st).2.readIdx ≤
      st.readIdx + (cfg.max_frame_retries + 1) *
        (cfg.timeout_packets + 1 + cfg.backoff_packet_reads) ∧
    (∀ e, (capture_frame_into src cfg ticks packet_buf_len st).1 = .error e →
      e ≠ .RetryLimitExceeded ∧
      (st.first_valid_synced = false → isImmediateErr e = false)) ∧
    (1 ≤ cfg.lines_per_segment →
      (capture_frame_into src cfg ticks packet_buf_len st).2.frame.length =
        st.frame.length ∧
      (capture_frame_into src cfg ticks packet_buf_len st).2.frame.drop
          (required_frame_buffer_len cfg) =
        st.frame.drop (required_frame_buffer_len cfg)) := by
  unfold capture_frame_into
  by_cases hps : cfg.packet_size_bytes < 4
  · rw [if_pos hps]
    refine ⟨by simp [captureOk], diagMono_refl _, le_refl _, by dsimp only []; omega,
      by dsimp only []; omega, ?_, fun _ => ⟨rfl, rfl⟩⟩
    intro e he
    cases he
    exact ⟨by simp, fun _ => by simp [isImmediateErr]⟩
  · rw [if_neg hps]
    by_cases hbuf : packet_buf_len < cfg.packet_size_bytes ∨
        st.frame.length < required_frame_buffer_len cfg
    · rw [if_pos hbuf]
      refine ⟨by simp [captureOk], diagMono_refl _, le_refl _, by dsimp only []; omega,
        by dsimp only []; omega, ?_, fun _ => ⟨rfl, rfl⟩⟩
      intro e he
      cases he
      exact ⟨by simp, fun _ => by simp [isImmediateErr]⟩
    · rw [if_neg hbuf]
      have h := capture_loop_spec src cfg ticks 0 0 none st (by omega) (by simp)
      obtain ⟨h1, h2, h3, h4, h5, h6, h7⟩ := h
      refine ⟨h1, h2, h3, by simpa using h4, by simpa using h5, h6, ?_⟩
      intro hlines
      exact h7 ⟨hlines, by omega⟩

/-! ### Claims -/

/-- C4 (counterexample): the packet `[0xF0, 0x14, 0x00, 0x00]` is a
discard packet (top nibble `F`) whose low 12 id bits equal 20, yet
`segment_number` returns `some 7` rather than `none` — the code never
consults the discard flag in `decode_segment_on_packet20`. -/
theorem claim_C4_counterexample :
    is_discard_packet [240, 20, 0, 0] = true ∧
    line_number [240, 20, 0, 0] = some 20 ∧
    segment_number [240, 20, 0, 0] = some 7 := by
  refine ⟨by decide, by decide, by decide⟩

/-- C4 (amended): segment decoding returns `Some` iff the packet parses
(at least 4 bytes) and its decoded `packet_number` equals 20 — the
discard flag is not consulted. -/
theorem claim_C4_segment_decode (pkt : List Nat) :
    (segment_number pkt).isSome = true ↔ line_number pkt = some 20 := by
  unfold segment_number line_number
  cases hp : parse_packet_header pkt with
  | none => simp
  | some h =>
    simp only [Option.bind_eq_bind, Option.some_bind, Option.map_some]
    unfold PacketHeader.decode_segment_on_packet20
    by_cases h20 : h.packet_number = 20
    · rw [if_neg (by simpa using h20)]
      simp [h20]
    · rw [if_pos (by simpa using h20)]
      simp [h20]

/-- C6: the normalized CRC of `crc.rs` is invariant under arbitrary
changes to byte 0's upper nibble and to bytes 2 and 3: two packets of the
same length (at least 4) agreeing on byte 0's lower nibble and on every
byte outside positions 0, 2 and 3 have the same CRC. -/
theorem claim_C6_crc_normalization (p q : List Nat)
    (hlen : p.length = q.length) (h4 : 4 ≤ p.length)
    (h0 : p.getD 0 0 % 16 = q.getD 0 0 % 16)
    (hrest : ∀ i, i < p.length → i ≠ 0 → i ≠ 2 → i ≠ 3 → p.getD i 0 = q.getD i 0) :
    lepton_packet_crc16_spec p = lepton_packet_crc16_spec q := by
  unfold lepton_packet_crc16_spec
  rw [if_neg (by omega), if_neg (by omega)]
  congr 1
  apply crc16_fold_congr p q 0 0 hlen
  intro i hi
  simp only [Nat.zero_add]
  unfold vospi_norm_byte
  by_cases hi0 : i = 0
  · subst hi0
    rw [if_pos rfl, if_pos rfl, h0]
  · by_cases hi23 : i = 2 ∨ i = 3
    · rw [if_neg hi0, if_pos hi23, if_neg hi0, if_pos hi23]
    · rw [if_neg hi0, if_neg hi23, if_neg hi0, if_neg hi23]
      rw [hrest i hi hi0 (fun h => hi23 (Or.inl h)) (fun h => hi23 (Or.inr h))]

/-- C6 witness: the invariance at the concrete pair from the repository's
CRC tests (`0x10`/`0xA0` id bytes, patched CRC field). -/
theorem claim_C6_crc_normalization_witness :
    ([16, 20, 0, 0, 90, 0, 0, 0, 0, 0, 0, 0] : List Nat).length =
      ([160, 20, 18, 52, 90, 0, 0, 0, 0, 0, 0, 0] : List Nat).length ∧
    4 ≤ ([16, 20, 0, 0, 90, 0, 0, 0, 0, 0, 0, 0] : List Nat).length ∧
    ([16, 20, 0, 0, 90, 0, 0, 0, 0, 0, 0, 0] : List Nat).getD 0 0 % 16 =
      ([160, 20, 18, 52, 90, 0, 0, 0, 0, 0, 0, 0] : List Nat).getD 0 0 % 16 ∧
    (∀ i, i < ([16, 20, 0, 0, 90, 0, 0, 0, 0, 0, 0, 0] : List Nat).length →
      i ≠ 0 → i ≠ 2 → i ≠ 3 →
      ([16, 20, 0, 0, 90, 0, 0, 0, 0, 0, 0, 0] : List Nat).getD i 0 =
        ([160, 20, 18, 52, 90, 0, 0, 0, 0, 0, 0, 0] : List Nat).getD i 0) ∧
    lepton_packet_crc16_spec [16, 20, 0, 0, 90, 0, 0, 0, 0, 0, 0, 0] =
      lepton_packet_crc16_spec [160, 20, 18, 52, 90, 0, 0, 0, 0, 0, 0, 0] :=
  ⟨by decide, by decide, by decide, by decide,
    claim_C6_crc_normalization _ _ (by decide) (by decide) (by decide) (by decide)⟩

/-- C7: across every `capture_frame_into` call — success or failure,
under any packet source behaviour — each cumulative diagnostics counter
is at least its value on entry; the core never resets any of them. -/
theorem claim_C7_counters_monotone {ε : Type} (src : Nat → Except ε (List Nat))
    (cfg : RobustCaptureConfig) (ticks : Nat → Nat) (packet_buf_len : Nat)
    (st : CaptureState) :
    st.diagnostics.discard_count ≤
      (capture_frame_into src cfg ticks packet_buf_len st).2.diagnostics.discard_count ∧
    st.diagnostics.crc_error_count ≤
      (capture_frame_into src cfg ticks packet_buf_len st).2.diagnostics.crc_error_count ∧
    st.diagnostics.bad_line_count ≤
      (capture_frame_into src cfg ticks packet_buf_len st).2.diagnostics.bad_line_count ∧
    st.diagnostics.resync_count ≤
      (capture_frame_into src cfg ticks packet_buf_len st).2.diagnostics.resync_count :=
  (capture_frame_into_spec src cfg ticks packet_buf_len st).2.1

/-- Helper for C5: across a sequence of capture calls the latch is the
disjunction of the initial latch with each call's success. -/
theorem run_captures_latch {ε : Type} (calls : List (CaptureCall ε)) :
    ∀ st : CaptureState,
      (run_captures calls st).2.first_valid_synced =
        (st.first_valid_synced || (run_captures calls st).1.any captureOk) := by
  induction calls with
  | nil => intro st; simp [run_captures]
  | cons c rest ih =>
    intro st
    unfold run_captures
    dsimp only []
    rw [ih, (capture_frame_into_spec c.src c.cfg c.ticks c.packet_buf_len st).1]
    simp [Bool.or_assoc]

/-- C5: `first_valid_synced` becomes true exactly when a capture call
returns successfully and is never cleared by a failing call (single-call
latch equation); across any sequence of capture calls starting with the
latch cleared, it holds iff at least one call returned a complete frame. -/
theorem claim_C5_latch_semantics {ε : Type} (src : Nat → Except ε (List Nat))
    (cfg : RobustCaptureConfig) (ticks : Nat → Nat) (packet_buf_len : Nat)
    (st : CaptureState) (calls : List (CaptureCall ε)) (st0 : CaptureState) :
    (capture_frame_into src cfg ticks packet_buf_len st).2.first_valid_synced =
      (st.first_valid_synced ||
        captureOk (capture_frame_into src cfg ticks packet_buf_len st).1) ∧
    (run_captures calls st0).2.first_valid_synced =
      (st0.first_valid_synced || (run_captures calls st0).1.any captureOk) ∧
    (st0.first_valid_synced = false →
      ((run_captures calls st0).2.first_valid_synced = true ↔
        ∃ r ∈ (run_captures calls st0).1, captureOk r = true)) := by
  refine ⟨(capture_frame_into_spec src cfg ticks packet_buf_len st).1,
    run_captures_latch calls st0, ?_⟩
  intro h0
  rw [run_captures_latch calls st0, h0]
  simp [List.any_eq_true]

/-- C5 witness: the sequence part at the empty call list from a fresh
state: the latch is false and indeed no call succeeded. -/
theorem claim_C5_latch_semantics_witness :
    (run_captures ([] : List (CaptureCall Unit)) initCaptureState).2.first_valid_synced
        = true ↔
      ∃ r ∈ (run_captures ([] : List (CaptureCall Unit)) initCaptureState).1,
        captureOk r = true :=
  (claim_C5_latch_semantics (fun _ => Except.error ()) RobustCaptureConfig.default
    (fun _ => 0) 0 initCaptureState [] initCaptureState).2.2 rfl

/-- C3: a capture call that starts with `first_valid_synced = false` (so
every attempt begins in Seeking) never returns `CrcMismatch`,
`LineOutOfOrder` or `SegmentOutOfOrder`. -/
theorem claim_C3_seeking_absorbs {ε : Type} (src : Nat → Except ε (List Nat))
    (cfg : RobustCaptureConfig) (ticks : Nat → Nat) (packet_buf_len : Nat)
    (st : CaptureState) (h0 : st.first_valid_synced = false) :
    ∀ e, (capture_frame_into src cfg ticks packet_buf_len st).1 = .error e →
      e ≠ .CrcMismatch ∧ (∀ x y, e ≠ .LineOutOfOrder x y) ∧
      (∀ x y, e ≠ .SegmentOutOfOrder x y) := by
  intro e he
  have h :=
    ((capture_frame_into_spec src cfg ticks packet_buf_len st).2.2.2.2.2.1 e he).2 h0
  cases e <;> simp_all [isImmediateErr]

/-- C3 witness: a fresh state with an always-failing source yields
`InvalidPacket` (empty frame buffer), which is none of the three
Seeking-excluded errors. -/
theorem claim_C3_seeking_absorbs_witness :
    initCaptureState.first_valid_synced = false ∧
    (capture_frame_into (fun _ => Except.error ()) RobustCaptureConfig.default
        (fun _ => 0) 164 initCaptureState).1 = .error .InvalidPacket ∧
    ((.InvalidPacket : CaptureError Unit) ≠ .CrcMismatch ∧
      (∀ x y, (.InvalidPacket : CaptureError Unit) ≠ .LineOutOfOrder x y) ∧
      (∀ x y, (.InvalidPacket : CaptureError Unit) ≠ .SegmentOutOfOrder x y)) :=
  ⟨rfl, rfl,
    claim_C3_seeking_absorbs (fun _ => Except.error ()) RobustCaptureConfig.default
      (fun _ => 0) 164 initCaptureState rfl .InvalidPacket rfl⟩

/-- A minimal configuration whose single permitted attempt (zero retries)
times out on the very first packet. -/
def cfgC9 : RobustCaptureConfig :=
  { enable_crc := false
    max_resync_attempts := 5
    max_frame_retries := 0
    packet_size_bytes := 4
    lines_per_segment := 1
    segments_per_frame := 1
    max_discard_packets := 5
    timeout_packets := 0
    backoff_packet_reads := 0 }

/-- A source that always delivers a 4-byte all-zero packet. -/
def srcC9 : Nat → Except Unit (List Nat) := fun _ => Except.ok [0, 0, 0, 0]

/-- C9 (counterexample): with `max_frame_retries = 0` the sole attempt
fails with `Timeout`; the retry ceiling is then exceeded, yet the call
returns the last attempt's error `Timeout` — not `RetryLimitExceeded`.
(`tickIdx = 1` records that exactly one attempt sampled the clock.) -/
theorem claim_C9_counterexample :
    cfgC9.max_frame_retries = 0 ∧
    (capture_frame_into srcC9 cfgC9 (fun _ => 0) 4 initCaptureState).1 =
      .error .Timeout ∧
    (capture_frame_into srcC9 cfgC9 (fun _ => 0) 4 initCaptureState).2.tickIdx = 1 ∧
    (.Timeout : CaptureError Unit) ≠ .RetryLimitExceeded := by
  refine ⟨rfl, ?_, ?_, by decide⟩
  · exact capture_frame_into_eval_map (fun r => r.1) (by rfl)
  · exact capture_frame_into_eval_map (fun r => r.2.tickIdx) (by rfl)

/-- C9 (amended): a capture call makes at most `max_frame_retries + 1`
assembly attempts (each attempt samples the clock exactly once, so
`tickIdx` grows by at most that), and the call never returns
`RetryLimitExceeded`: on exhaustion it returns the last attempt's error. -/
theorem claim_C9_retry_ceiling {ε : Type} (src : Nat → Except ε (List Nat))
    (cfg : RobustCaptureConfig) (ticks : Nat → Nat) (packet_buf_len : Nat)
    (st : CaptureState) :
    (capture_frame_into src cfg ticks packet_buf_len st).2.tickIdx ≤
      st.tickIdx + (cfg.max_frame_retries + 1) ∧
    ∀ e, (capture_frame_into src cfg ticks packet_buf_len st).1 = .error e →
      e ≠ .RetryLimitExceeded := by
  have h := capture_frame_into_spec src cfg ticks packet_buf_len st
  exact ⟨h.2.2.2.1, fun e he => (h.2.2.2.2.2.1 e he).1⟩

/-- C9 witness: the amended theorem applied to the zero-retry timeout run. -/
theorem claim_C9_retry_ceiling_witness :
    (capture_frame_into srcC9 cfgC9 (fun _ => 0) 4 initCaptureState).1 =
      Except.error .Timeout ∧
    (.Timeout : CaptureError Unit) ≠ .RetryLimitExceeded :=
  ⟨capture_frame_into_eval_map (fun r => r.1) (by rfl),
    (claim_C9_retry_ceiling srcC9 cfgC9 (fun _ => 0) 4 initCaptureState).2 .Timeout
      (capture_frame_into_eval_map (fun r => r.1) (by rfl))⟩

/-- A degenerate configuration with `lines_per_segment = 0`, so
`required_frame_buffer_len` is 0 and the buffer precondition accepts any
frame buffer. -/
def cfgC10 : RobustCaptureConfig :=
  { enable_crc := false
    max_resync_attempts := 5
    max_frame_retries := 0
    packet_size_bytes := 5
    lines_per_segment := 0
    segments_per_frame := 1
    max_discard_packets := 5
    timeout_packets := 1
    backoff_packet_reads := 0 }

/-- A source that always delivers the 5-byte packet `[0,0,0,0,9]`:
line 0, payload byte 9. -/
def srcC10 : Nat → Except Unit (List Nat) := fun _ => Except.ok [0, 0, 0, 0, 9]

/-- The driver state for the C10 run: fresh, with a 1-byte frame buffer
holding the byte 7. -/
def stC10 : CaptureState := { initCaptureState with frame := [7] }

/-- C10 (counterexample): under the checked preconditions
(`packet_size_bytes = 5 ≥ 4`, `packet_buf.len() = 5 ≥ 5`,
`frame.len() = 1 ≥ required_frame_buffer_len = 0`), accepting a packet
writes the payload byte into the frame buffer at index 0, beyond the
required length 0: the suffix of the frame from `required_frame_buffer_len`
changes from `[7]` to `[9]`. -/
theorem claim_C10_counterexample :
    required_frame_buffer_len cfgC10 = 0 ∧
    ¬ cfgC10.packet_size_bytes < 4 ∧
    ¬ (5 < cfgC10.packet_size_bytes ∨
        stC10.frame.length < required_frame_buffer_len cfgC10) ∧
    (capture_frame_into srcC10 cfgC10 (fun _ => 0) 5 stC10).2.frame.drop
        (required_frame_buffer_len cfgC10) = [9] ∧
    stC10.frame.drop (required_frame_buffer_len cfgC10) = [7] := by
  refine ⟨rfl, by decide, by decide, ?_, rfl⟩
  exact capture_frame_into_eval_map
    (fun r => r.2.frame.drop (required_frame_buffer_len cfgC10)) (by rfl)

/-- C10 (amended): when `lines_per_segment ≥ 1` — every non-degenerate
configuration — a capture call preserves the frame buffer's length and
leaves every byte at index `≥ required_frame_buffer_len cfg` unchanged. -/
theorem claim_C10_frame_bounds {ε : Type} (src : Nat → Except ε (List Nat))
    (cfg : RobustCaptureConfig) (ticks : Nat → Nat) (packet_buf_len : Nat)
    (st : CaptureState) (h : 1 ≤ cfg.lines_per_segment) :
    (capture_frame_into src cfg ticks packet_buf_len st).2.frame.length =
      st.frame.length ∧
    (capture_frame_into src cfg ticks packet_buf_len st).2.frame.drop
        (required_frame_buffer_len cfg) =
      st.frame.drop (required_frame_buffer_len cfg) :=
  (capture_frame_into_spec src cfg ticks packet_buf_len st).2.2.2.2.2.2 h

/-- C10 witness: the amended theorem at the default configuration. -/
theorem claim_C10_frame_bounds_witness :
    1 ≤ RobustCaptureConfig.default.lines_per_segment ∧
    ((capture_frame_into (fun _ => Except.error ()) RobustCaptureConfig.default
        (fun _ => 0) 164 initCaptureState).2.frame.length =
      initCaptureState.frame.length ∧
    (capture_frame_into (fun _ => Except.error ()) RobustCaptureConfig.default
        (fun _ => 0) 164 initCaptureState).2.frame.drop
        (required_frame_buffer_len RobustCaptureConfig.default) =
      initCaptureState.frame.drop
        (required_frame_buffer_len RobustCaptureConfig.default)) :=
  ⟨by decide,
    claim_C10_frame_bounds (fun _ => Except.error ()) RobustCaptureConfig.default
      (fun _ => 0) 164 initCaptureState (by decide)⟩

/-- C8: per-attempt packet accounting and the call-level read bound. In
one assembler attempt every consumed packet — discards and silent skips
included — is counted by `packets_seen` (`readIdx` grows by exactly
`packets_seen`), the counter never exceeds `timeout_packets + 1`, and
reaching `timeout_packets + 1` means the attempt failed with `Timeout`;
consequently a capture call performs at most
`(max_frame_retries + 1) * (timeout_packets + 1 + backoff_packet_reads)`
packet reads. (Termination whenever the source returns is the
well-definedness of the total functions `read_one_frame` and
`capture_frame_into` themselves, whose recursion is bounded by these same
measures.) -/
theorem claim_C8_timeout_bound {ε : Type} (src : Nat → Except ε (List Nat))
    (cfg : RobustCaptureConfig) (st : CaptureState) (ticks : Nat → Nat)
    (packet_buf_len : Nat) (st' : CaptureState)
    (hps : ¬ cfg.packet_size_bytes < 4) :
    ((read_one_frame src cfg st).2.readIdx =
        st.readIdx + (read_one_frame src cfg st).2.packets_seen ∧
      (read_one_frame src cfg st).2.packets_seen ≤ cfg.timeout_packets + 1 ∧
      ((read_one_frame src cfg st).2.packets_seen = cfg.timeout_packets + 1 →
        (read_one_frame src cfg st).1 = .error .Timeout)) ∧
    (capture_frame_into src cfg ticks packet_buf_len st').2.readIdx ≤
      st'.readIdx + (cfg.max_frame_retries + 1) *
        (cfg.timeout_packets + 1 + cfg.backoff_packet_reads) :=
  ⟨(read_one_frame_spec src cfg st).2.2.2.2.2.1 hps,
    (capture_frame_into_spec src cfg ticks packet_buf_len st').2.2.2.2.1⟩

/-- C8 witness: the accounting at the default configuration on an
always-failing source. -/
theorem claim_C8_timeout_bound_witness :
    ¬ RobustCaptureConfig.default.packet_size_bytes < 4 ∧
    (read_one_frame (fun _ => Except.error ()) RobustCaptureConfig.default
        initCaptureState).2.packets_seen ≤
      RobustCaptureConfig.default.timeout_packets + 1 :=
  ⟨by decide,
    (claim_C8_timeout_bound (fun _ => Except.error ()) RobustCaptureConfig.default
      initCaptureState (fun _ => 0) 164 initCaptureState (by decide)).1.2.1⟩

/-- `read_one_frame` on a run whose packet loop succeeds identically for
every `locked` value: the result is `Ok` and the sync state is set to
`Locked`. -/
theorem read_one_frame_ok {ε : Type} {src : Nat → Except ε (List Nat)}
    {cfg : RobustCaptureConfig} {st st2 : CaptureState}
    (hps : ¬ cfg.packet_size_bytes < 4)
    (h : ∀ L : Bool, read_frame_loop src cfg L
      { st with expected_segment := 1, expected_packet_number := 0,
                packets_seen := 0 } = (.ok (), st2)) :
    read_one_frame src cfg st = (.ok (), { st2 with sync_state := SyncState.Locked }) := by
  unfold read_one_frame
  rw [if_neg hps]
  dsimp only []
  rw [h]

/-- `capture_frame_from_source` on a successful inner capture. -/
theorem capture_frame_from_source_ok {ε : Type} {src : Nat → Except ε (List Nat)}
    {cfg : RobustCaptureConfig} {ticks : Nat → Nat} {st st2 : CaptureState}
    {meta : FrameMeta}
    (h : capture_frame_into src cfg ticks cfg.packet_size_bytes
      { st with frame := List.replicate (required_frame_buffer_len cfg) 0 } =
      (.ok meta, st2)) :
    capture_frame_from_source src cfg ticks st =
      (.ok { pixels := st2.frame, meta := meta }, st2) := by
  unfold capture_frame_from_source
  dsimp only []
  rw [h]

/-- The frame buffer allocated by `capture_frame_from_source` under the
default configuration, attached to a fresh driver state. -/
def stC1 : CaptureState :=
  { initCaptureState with
      frame := List.replicate (required_frame_buffer_len RobustCaptureConfig.default) 0 }

/-- The loop-entry state of the happy-path attempt. -/
def attC1 (ticks : Nat → Nat) : CaptureState :=
  { begin_attempt RobustCaptureConfig.default ticks stC1 with
      expected_segment := 1, expected_packet_number := 0, packets_seen := 0 }

/-- The happy-path packet loop accepts all 240 canonical packets and
exits with the filled frame. -/
theorem canonC1_chain (ticks : Nat → Nat) (L : Bool) :
    read_frame_loop canonSrc RobustCaptureConfig.default L
      { begin_attempt RobustCaptureConfig.default ticks stC1 with
          expected_segment := 1, expected_packet_number := 0,
          packets_seen := 0 } =
      (.ok (), canonSt (attC1 ticks) 240) := by
  have h0 : ({ begin_attempt RobustCaptureConfig.default ticks stC1 with
      expected_segment := 1, expected_packet_number := 0,
      packets_seen := 0 } : CaptureState) = canonSt (attC1 ticks) 0 := by
    unfold canonSt attC1
    rw [canonFrameAt_zero]
    rfl
  rw [h0]
  rw [canon_chain (attC1 ticks) rfl rfl rfl (by decide) 240 0 (by omega)
    (fun j _ hj => by unfold canonSrc; rw [if_pos (by omega)])]
  simp only [Nat.zero_add]
  exact read_frame_loop_exit (by show (4 : Nat) < 240 / 60 + 1; omega)

/-- C1: capturing from a source that delivers exactly one well-formed
frame (4 segments × 60 lines, correct CRCs, payload seed `segment * 9`),
with the default configuration and a fresh unsynced state, returns `Ok`
with `meta.valid = true`, `meta.resync_count = 0` (and all other per-frame
counters 0), and a pixel buffer of `160 * 60 * 4 = 38400` bytes equal to
the 240 packet payloads concatenated in (segment, line) order. -/
theorem claim_C1_happy_path (ticks : Nat → Nat) :
    (capture_frame_from_source canonSrc RobustCaptureConfig.default ticks
        initCaptureState).1 =
      .ok { pixels := canonPixels
            meta := { valid := true, capture_ticks := ticks 0, discard_packets := 0,
                      crc_errors := 0, bad_line_count := 0, resync_count := 0 } } ∧
    canonPixels.length = 160 * 60 * 4 ∧
    canonPixels.length = 38400 ∧
    canonPixels = ((List.range 240).map canonPayload).flatten := by
  refine ⟨?_, ?_, ?_, rfl⟩
  case refine_2 => unfold canonPixels; rw [canonJoin_length 240]
  case refine_3 => unfold canonPixels; rw [canonJoin_length 240]
  have hread : read_one_frame canonSrc RobustCaptureConfig.default
      (begin_attempt RobustCaptureConfig.default ticks stC1) =
      (.ok (), { canonSt (attC1 ticks) 240 with sync_state := SyncState.Locked }) :=
    read_one_frame_ok (by decide) (fun L => canonC1_chain ticks L)
  have hloop : capture_loop canonSrc RobustCaptureConfig.default ticks 0 0 none stC1 =
      (.ok { ({ canonSt (attC1 ticks) 240 with
                sync_state := SyncState.Locked } : CaptureState).meta with valid := true },
        { ({ canonSt (attC1 ticks) 240 with sync_state := SyncState.Locked } :
            CaptureState) with
          first_valid_synced := true
          meta := { ({ canonSt (attC1 ticks) 240 with
            sync_state := SyncState.Locked } : CaptureState).meta with valid := true } }) :=
    capture_loop_success (by decide) (by decide) hread
  have hinto : capture_frame_into canonSrc RobustCaptureConfig.default ticks
      RobustCaptureConfig.default.packet_size_bytes stC1 =
      capture_loop canonSrc RobustCaptureConfig.default ticks 0 0 none stC1 := by
    unfold capture_frame_into
    rw [if_neg (by decide), if_neg (by simp [stC1])]
  have hsrc2 := capture_frame_from_source_ok (hinto.trans hloop)
  rw [hsrc2]
  dsimp only []
  rw [show ({ ({ canonSt (attC1 ticks) 240 with sync_state := SyncState.Locked } :
        CaptureState) with
      first_valid_synced := true
      meta := { ({ canonSt (attC1 ticks) 240 with
        sync_state := SyncState.Locked } : CaptureState).meta with valid := true } } :
      CaptureState).frame = canonFrameAt 240 from rfl]
  rw [canonFrameAt_full]
  exact rfl

/-- `handle_header` while Locked on a CRC-valid, non-discard packet whose
line number differs from the expected one: `LineOutOfOrder` with the
bad-line counters bumped. -/
theorem handle_header_badline {ε : Type} (cfg : RobustCaptureConfig)
    (buf : List Nat) (hd : PacketHeader) (st : CaptureState)
    (hdisc : hd.is_discard = false)
    (hcrc : ¬ (cfg.enable_crc = true ∧ validate_packet_crc buf = false))
    (hpn : hd.packet_number ≠ st.expected_packet_number) :
    handle_header (ε := ε) cfg true buf hd st =
      .fatal (.LineOutOfOrder (st.expected_packet_number % 65536) hd.packet_number)
        { st with diagnostics.bad_line_count := st.diagnostics.bad_line_count + 1,
                  meta.bad_line_count := st.meta.bad_line_count + 1 } := by
  unfold handle_header
  rw [if_neg (show ¬ hd.is_discard = true by simp [hdisc])]
  rw [if_neg hcrc]
  dsimp only []
  rw [if_neg (show ¬ ((true : Bool) = false ∧ st.expected_segment = 1 ∧
    st.expected_packet_number = 0 ∧ hd.packet_number ≠ 0) by simp)]
  rw [if_pos hpn]
  rw [if_pos (show (true : Bool) = true from rfl)]

/-- One loop iteration while Locked on an out-of-order line: the packet is
read and counted, then the attempt fails with `LineOutOfOrder`. -/
theorem read_packet_step_badline {ε : Type} {src : Nat → Except ε (List Nat)}
    {cfg : RobustCaptureConfig} {st : CaptureState} {pkt : List Nat} {hd : PacketHeader}
    (hsrc : src st.readIdx = .ok pkt)
    (hlen : pkt.length = cfg.packet_size_bytes)
    (hseen : st.packets_seen + 1 ≤ cfg.timeout_packets)
    (hparse : parse_packet_header pkt = some hd)
    (hdisc : hd.is_discard = false)
    (hcrc : ¬ (cfg.enable_crc = true ∧ validate_packet_crc pkt = false))
    (hpn : hd.packet_number ≠ st.expected_packet_number) :
    read_packet_step src cfg true st =
      .fatal (.LineOutOfOrder (st.expected_packet_number % 65536) hd.packet_number)
        { st with readIdx := st.readIdx + 1, packets_seen := st.packets_seen + 1,
                  diagnostics.bad_line_count := st.diagnostics.bad_line_count + 1,
                  meta.bad_line_count := st.meta.bad_line_count + 1 } := by
  unfold read_packet_step
  rw [hsrc]
  dsimp only []
  rw [buffer_fill_of_length hlen]
  rw [if_neg (show ¬ cfg.timeout_packets <
    ({ st with readIdx := st.readIdx + 1, packets_seen := st.packets_seen + 1 } :
      CaptureState).packets_seen by dsimp only []; omega)]
  rw [hparse]
  exact handle_header_badline cfg pkt hd
    { st with readIdx := st.readIdx + 1, packets_seen := st.packets_seen + 1 }
    hdisc hcrc hpn

/-- `read_one_frame` entered in `Locked` whose packet loop fails. -/
theorem read_one_frame_locked_err {ε : Type} {src : Nat → Except ε (List Nat)}
    {cfg : RobustCaptureConfig} {st st2 : CaptureState} {e : CaptureError ε}
    (hps : ¬ cfg.packet_size_bytes < 4)
    (hL : decide (st.sync_state = SyncState.Locked) = true)
    (h : read_frame_loop src cfg true
      { st with expected_segment := 1, expected_packet_number := 0,
                packets_seen := 0 } = (.error e, st2)) :
    read_one_frame src cfg st = (.error e, st2) := by
  unfold read_one_frame
  rw [if_neg hps]
  dsimp only []
  rw [hL, h]

/-- `capture_frame_from_source` on a failed inner capture. -/
theorem capture_frame_from_source_err {ε : Type} {src : Nat → Except ε (List Nat)}
    {cfg : RobustCaptureConfig} {ticks : Nat → Nat} {st st2 : CaptureState}
    {e : CaptureError ε}
    (h : capture_frame_into src cfg ticks cfg.packet_size_bytes
      { st with frame := List.replicate (required_frame_buffer_len cfg) 0 } =
      (.error e, st2)) :
    capture_frame_from_source src cfg ticks st = (.error e, st2) := by
  unfold capture_frame_from_source
  dsimp only []
  rw [h]

/-- The immediate-fatal rule of `capture_frame_into`: an attempt that
starts Locked and fails with one of the three immediate errors surfaces
it at once, after the resync bookkeeping and nothing else. -/
theorem immediate_fatal_general {ε : Type} (src : Nat → Except ε (List Nat))
    (cfg : RobustCaptureConfig) (ticks : Nat → Nat) (packet_buf_len : Nat)
    (st st2 : CaptureState) (e : CaptureError ε)
    (hps : ¬ cfg.packet_size_bytes < 4)
    (hbuf : ¬ (packet_buf_len < cfg.packet_size_bytes ∨
      st.frame.length < required_frame_buffer_len cfg))
    (hlatch : st.first_valid_synced = true)
    (hread : read_one_frame src cfg (begin_attempt cfg ticks st) = (.error e, st2))
    (himm : isImmediateErr e = true) :
    capture_frame_into src cfg ticks packet_buf_len st = (.error e, resync_bump st2) := by
  have hspi : isSpiErr e = false := by
    cases e <;> simp_all [isImmediateErr, isSpiErr]
  have hcls := (read_one_frame_spec src cfg (begin_attempt cfg ticks st)).2.2.2.2.1 e
    (by rw [hread])
  have hsync : st2.sync_state = SyncState.Locked := by
    have h1 := hcls.1
    rw [hread] at h1
    dsimp only [] at h1
    rw [h1]
    unfold begin_attempt
    dsimp only []
    rw [hlatch]
    rfl
  unfold capture_frame_into
  rw [if_neg hps, if_neg hbuf]
  exact capture_loop_immediate (by omega) (by omega) hread hspi ⟨hsync, himm⟩

/-- The default configuration with no retries allowed. -/
def cfgC2 : RobustCaptureConfig :=
  { RobustCaptureConfig.default with max_frame_retries := 0 }

/-- A fresh driver state whose latch is already set (initially Locked). -/
def lockedStart : CaptureState :=
  { initCaptureState with first_valid_synced := true }

/-- The Locked start state with the allocated frame buffer attached. -/
def stfC2 : CaptureState :=
  { lockedStart with
      frame := List.replicate (required_frame_buffer_len cfgC2) 0 }

/-- The loop-entry state of the line-jump attempt. -/
def attC2 (ticks : Nat → Nat) : CaptureState :=
  { begin_attempt cfgC2 ticks stfC2 with
      expected_segment := 1, expected_packet_number := 0, packets_seen := 0 }

/-- The assembler state in which the line-jump attempt fails: packet 8
consumed, bad-line counters bumped. -/
def stBadC2 (ticks : Nat → Nat) : CaptureState :=
  { canonSt (attC2 ticks) 8 with
      readIdx := 9
      packets_seen := 9
      diagnostics.bad_line_count := (attC2 ticks).diagnostics.bad_line_count + 1
      meta.bad_line_count := (attC2 ticks).meta.bad_line_count + 1 }

/-- The line-jump packet loop: 8 packets are accepted, then the packet
carrying line 11 instead of line 8 fails the Locked attempt. -/
theorem lineJump_loop (ticks : Nat → Nat) :
    read_frame_loop lineJumpSrc cfgC2 true
      { begin_attempt cfgC2 ticks stfC2 with
          expected_segment := 1, expected_packet_number := 0,
          packets_seen := 0 } =
      (.error (.LineOutOfOrder 8 11), stBadC2 ticks) := by
  have h0 : ({ begin_attempt cfgC2 ticks stfC2 with
      expected_segment := 1, expected_packet_number := 0,
      packets_seen := 0 } : CaptureState) = canonSt (attC2 ticks) 0 := by
    unfold canonSt attC2
    rw [canonFrameAt_zero]
    rfl
  rw [h0]
  rw [canon_chain (attC2 ticks) rfl rfl rfl (by decide) 8 0 (by omega)
    (fun j hj0 hj => by
      unfold lineJumpSrc canonSrc
      rw [if_neg (show ¬ j = 8 by omega), if_pos (by omega)])]
  simp only [Nat.zero_add]
  have hstep : read_packet_step lineJumpSrc cfgC2 true (canonSt (attC2 ticks) 8) =
      .fatal (.LineOutOfOrder 8 11) (stBadC2 ticks) :=
    read_packet_step_badline
      (show lineJumpSrc (canonSt (attC2 ticks) 8).readIdx = .ok (mk_packet 11 1 0)
        from rfl)
      (show (mk_packet 11 1 0).length = cfgC2.packet_size_bytes
        from mk_packet_length 11 1 0)
      (show (canonSt (attC2 ticks) 8).packets_seen + 1 ≤ cfgC2.timeout_packets
        by show (8 : Nat) + 1 ≤ 3000; omega)
      (parse_mk_packet 11 1 0 (by omega) (by omega))
      rfl
      (by simp [validate_mk_packet 11 1 0 (by omega) (by omega)])
      (show (11 : Nat) ≠ (canonSt (attC2 ticks) 8).expected_packet_number
        by show (11 : Nat) ≠ 8 % 60; omega)
  exact read_frame_loop_fatal
    (show ¬ cfgC2.segments_per_frame < (canonSt (attC2 ticks) 8).expected_segment
      by show ¬ (4 : Nat) < 8 / 60 + 1; omega)
    hstep

/-- C2: if a capture attempt begins Locked (`first_valid_synced = true` at
attempt start) and the assembler fails with one of `CrcMismatch`,
`LineOutOfOrder` or `SegmentOutOfOrder`, `capture_frame_into` returns that
same error immediately — no backoff reads (`readIdx` unchanged), no
further attempt (`tickIdx` unchanged) — after incrementing the cumulative
and per-frame resync counters; in particular, a stream whose packet at
index 8 carries line number 11, with `max_frame_retries = 0` and an
initially Locked state, returns `LineOutOfOrder` with expected 8 and
observed 11. -/
theorem claim_C2_immediate_fatal {ε : Type} (src : Nat → Except ε (List Nat))
    (cfg : RobustCaptureConfig) (ticks ticks2 : Nat → Nat) (packet_buf_len : Nat)
    (st st2 : CaptureState) (e : CaptureError ε)
    (hps : ¬ cfg.packet_size_bytes < 4)
    (hbuf : ¬ (packet_buf_len < cfg.packet_size_bytes ∨
      st.frame.length < required_frame_buffer_len cfg))
    (hlatch : st.first_valid_synced = true)
    (hread : read_one_frame src cfg (begin_attempt cfg ticks st) = (.error e, st2))
    (himm : isImmediateErr e = true) :
    (capture_frame_into src cfg ticks packet_buf_len st = (.error e, resync_bump st2) ∧
      (resync_bump st2).diagnostics.resync_count = st2.diagnostics.resync_count + 1 ∧
      (resync_bump st2).meta.resync_count = st2.meta.resync_count + 1 ∧
      (resync_bump st2).readIdx = st2.readIdx ∧
      (resync_bump st2).tickIdx = st2.tickIdx) ∧
    (capture_frame_from_source lineJumpSrc cfgC2 ticks2 lockedStart).1 =
      .error (.LineOutOfOrder 8 11) := by
  refine ⟨⟨immediate_fatal_general src cfg ticks packet_buf_len st st2 e
    hps hbuf hlatch hread himm, rfl, rfl, rfl, rfl⟩, ?_⟩
  have hread2 : read_one_frame lineJumpSrc cfgC2 (begin_attempt cfgC2 ticks2 stfC2) =
      (.error (.LineOutOfOrder 8 11), stBadC2 ticks2) :=
    read_one_frame_locked_err (by decide) rfl (lineJump_loop ticks2)
  have hcap := immediate_fatal_general lineJumpSrc cfgC2 ticks2
    cfgC2.packet_size_bytes stfC2 (stBadC2 ticks2) (.LineOutOfOrder 8 11)
    (by decide) (by simp [stfC2]) rfl hread2 rfl
  have hsrc2 := capture_frame_from_source_err hcap
  rw [hsrc2]

/-- C2 witness: the general immediate-fatal rule applied to the line-jump
run itself. -/
theorem claim_C2_immediate_fatal_witness :
    (¬ cfgC2.packet_size_bytes < 4) ∧
    (¬ (cfgC2.packet_size_bytes < cfgC2.packet_size_bytes ∨
      stfC2.frame.length < required_frame_buffer_len cfgC2)) ∧
    stfC2.first_valid_synced = true ∧
    isImmediateErr (.LineOutOfOrder 8 11 : CaptureError Unit) = true ∧
    capture_frame_into lineJumpSrc cfgC2 (fun _ => 1) cfgC2.packet_size_bytes stfC2 =
      (.error (.LineOutOfOrder 8 11), resync_bump (stBadC2 (fun _ => 1))) :=
  ⟨by decide, by simp [stfC2], rfl, rfl,
    (claim_C2_immediate_fatal lineJumpSrc cfgC2 (fun _ => 1) (fun _ => 1)
      cfgC2.packet_size_bytes stfC2 (stBadC2 (fun _ => 1)) (.LineOutOfOrder 8 11)
      (by decide) (by simp [stfC2]) rfl
      (read_one_frame_locked_err (by decide) rfl (lineJump_loop (fun _ => 1)))
      rfl).1.1⟩

end LeptonRs
